import Mathlib

/-!
Verification of the gachi-amm bonding-curve AMM core (programs/amm).

Shallow embedding of the Rust sources:
  * `src/math/safe_math.rs`        — checked arithmetic (`SafeMath`, `safe_mul_div_cast_u64`)
  * `src/constants.rs`             — fee / cashback constants
  * `src/states/cashback.rs`       — `CashbackTier`, `CashbackAccount`
  * `src/states/config.rs`         — `Config`, `FeeBreakdown`, `get_fee_on_amount`,
                                     `get_max_swallow_quote_amount`
  * `src/instructions/admin/ix_create_config.rs` — `ConfigParameters::validate`
  * `src/states/bonding_curve.rs`  — `BondingCurve`, swap walks, `get_swap_result`,
                                     `apply_swap_result`, claim functions
  * `src/instructions/ix_swap.rs`  — `handle_swap` (pure core)
  * claim instruction handlers (pure cores)

Machine integers are modelled as `Nat` with explicit bound checks exactly where the
Rust checked operations perform them; fallible code returns `Except AmmError`.
The curve-math primitives (`get_delta_amount_*`, `get_next_sqrt_price_from_input`)
live in a `curve` module that is not part of the provided sources; they are
modelled from the spec (§4.3) and marked as such in their doc comments.
-/

namespace GachiAmm

/-- Error codes from `src/errors.rs` (the subset reachable from the embedded core). -/
inductive AmmError where
  | mathOverflow
  | typeCastFailed
  | amountIsZero
  | poolIsCompleted
  | exceededSlippage
  | swapAmountIsOverAThreshold
  | invalidMigrationCalculation
  | invalidCashbackTier
  | nothingToClaim
  | invalidTokenType
  | invalidTokenDecimals
  | invalidFeeBasisPoints
  | invalidAmmConfig
  | invalidCreatorTradingFeePercentage
  deriving Repr, DecidableEq

/-- Result type of fallible operations (Rust `Result<T>` over `AmmError`). -/
abbrev Res (α : Type) : Type := Except AmmError α

instance {α : Type} [DecidableEq α] : DecidableEq (Res α) := fun a b =>
  match a, b with
  | .ok x, .ok y =>
      if h : x = y then .isTrue (by rw [h]) else .isFalse (by intro hc; cases hc; exact h rfl)
  | .error x, .error y =>
      if h : x = y then .isTrue (by rw [h]) else .isFalse (by intro hc; cases hc; exact h rfl)
  | .ok _, .error _ => .isFalse (by intro hc; cases hc)
  | .error _, .ok _ => .isFalse (by intro hc; cases hc)

/-- `u128x128_math::Rounding`. -/
inductive Rounding where
  | up
  | down
  deriving Repr, DecidableEq

/-! ## Checked arithmetic (`src/math/safe_math.rs`)

Rust `checked_add`/`checked_sub`/`checked_mul`/`checked_div` on fixed-width
integers; a `None` becomes `AmmError::MathOverflow`. Widths appear as explicit
`2 ^ w` bounds. -/

/-- `u64::checked_add`, errors with `MathOverflow` on wraparound. -/
def safe_add_u64 (a b : Nat) : Res Nat :=
  if a + b < 2 ^ 64 then .ok (a + b) else .error .mathOverflow

/-- `u16::checked_add`, errors with `MathOverflow` on wraparound. -/
def safe_add_u16 (a b : Nat) : Res Nat :=
  if a + b < 2 ^ 16 then .ok (a + b) else .error .mathOverflow

/-- `checked_sub` (any unsigned width), errors with `MathOverflow` on underflow. -/
def safe_sub (a b : Nat) : Res Nat :=
  if b ≤ a then .ok (a - b) else .error .mathOverflow

/-- Lossy narrowing to `u64` (`try_into`), errors with `TypeCastFailed`. -/
def u64_cast (n : Nat) : Res Nat :=
  if n < 2 ^ 64 then .ok n else .error .typeCastFailed

/--
`safe_mul_div_cast_u64` from `src/math/safe_math.rs`: widen both operands to
`u128`, multiply (checked), divide by `denominator` with the requested rounding
(`Up` computes `(prod + den - 1) / den` through checked add and sub), then
narrow the `u128` result to `u64` (`TypeCastFailed` on loss).
-/
def safe_mul_div_cast_u64 (x y denominator : Nat) (rounding : Rounding) : Res Nat :=
  if 2 ^ 128 ≤ x * y then .error .mathOverflow
  else
    match rounding with
    | .up =>
      if 2 ^ 128 ≤ x * y + denominator then .error .mathOverflow
      else if x * y + denominator = 0 then .error .mathOverflow
      else if denominator = 0 then .error .mathOverflow
      else if 2 ^ 64 ≤ (x * y + denominator - 1) / denominator then .error .typeCastFailed
      else .ok ((x * y + denominator - 1) / denominator)
    | .down =>
      if denominator = 0 then .error .mathOverflow
      else if 2 ^ 64 ≤ x * y / denominator then .error .typeCastFailed
      else .ok (x * y / denominator)

/-! ## Constants (`src/constants.rs`) -/

def FEE_DENOMINATOR : Nat := 100000
def MAX_FEE_BASIS_POINTS : Nat := 10000

def CASHBACK_WOOD_BPS : Nat := 50
def CASHBACK_BRONZE_BPS : Nat := 100
def CASHBACK_SILVER_BPS : Nat := 125
def CASHBACK_GOLD_BPS : Nat := 150
def CASHBACK_PLATINUM_BPS : Nat := 175
def CASHBACK_DIAMOND_BPS : Nat := 200
def CASHBACK_CHAMPION_BPS : Nat := 250

/-! ## Cashback tiers (`src/states/cashback.rs`) -/

/-- `CashbackTier` (`repr(u8)`, ordinals 0–6). -/
inductive CashbackTier where
  | wood
  | bronze
  | silver
  | gold
  | platinum
  | diamond
  | champion
  deriving Repr, DecidableEq

/-- `CashbackTier::get_cashback_bps`. -/
def CashbackTier.get_cashback_bps : CashbackTier → Nat
  | .wood => CASHBACK_WOOD_BPS
  | .bronze => CASHBACK_BRONZE_BPS
  | .silver => CASHBACK_SILVER_BPS
  | .gold => CASHBACK_GOLD_BPS
  | .platinum => CASHBACK_PLATINUM_BPS
  | .diamond => CASHBACK_DIAMOND_BPS
  | .champion => CASHBACK_CHAMPION_BPS

/-- `CashbackTier::try_from` (derived `TryFromPrimitive` on the `u8` repr). -/
def CashbackTier.try_from (v : Nat) : Option CashbackTier :=
  match v with
  | 0 => some .wood
  | 1 => some .bronze
  | 2 => some .silver
  | 3 => some .gold
  | 4 => some .platinum
  | 5 => some .diamond
  | 6 => some .champion
  | _ => none

/-- The `u8` ordinal of a tier (inverse of `try_from` on 0–6). -/
def CashbackTier.ordinal : CashbackTier → Nat
  | .wood => 0
  | .bronze => 1
  | .silver => 2
  | .gold => 3
  | .platinum => 4
  | .diamond => 5
  | .champion => 6

/-- `CashbackAccount` state (pubkey modelled as an opaque `Nat`). -/
structure CashbackAccount where
  owner : Nat
  current_tier : Nat
  last_claim_timestamp : Int
  deriving Repr, DecidableEq

/-- `CashbackAccount::update_tier`: stores the argument without validation. -/
def CashbackAccount.update_tier (acc : CashbackAccount) (new_tier : Nat) : CashbackAccount :=
  { acc with current_tier := new_tier }

/-- `CashbackAccount::get_tier`: clamp stored values above 6 to Champion, then
`CashbackTier::try_from`, mapping failure to `InvalidCashbackTier`. -/
def CashbackAccount.get_tier (acc : CashbackAccount) : Res CashbackTier :=
  match CashbackTier.try_from (if acc.current_tier > 6 then 6 else acc.current_tier) with
  | some t => .ok t
  | none => .error .invalidCashbackTier

/-! ## Config and the fee engine (`src/states/config.rs`) -/

/-- `LiquidityDistributionConfig`: one curve breakpoint. -/
structure LiquidityDistributionConfig where
  sqrt_price : Nat
  liquidity : Nat
  deriving Repr, DecidableEq

/-- `Config` (the fields read by the embedded core; pubkeys and padding omitted).
The `curve` array has the fixed length 4 of the Rust `[LiquidityDistributionConfig; 4]`. -/
structure Config where
  fee_basis_points : Nat
  l1_referral_fee_basis_points : Nat
  l2_referral_fee_basis_points : Nat
  l3_referral_fee_basis_points : Nat
  referee_discount_basis_points : Nat
  creator_fee_basis_points : Nat
  migration_fee_basis_points : Nat
  migration_quote_threshold : Nat
  migration_base_threshold : Nat
  swap_base_amount : Nat
  initial_sqrt_price : Nat
  migration_sqrt_price : Nat
  curve : Fin 4 → LiquidityDistributionConfig

/-- `FeeBreakdown` from `src/states/config.rs`. -/
structure FeeBreakdown where
  amount : Nat
  l1_referral_fee : Nat
  l2_referral_fee : Nat
  l3_referral_fee : Nat
  creator_fee : Nat
  cashback_fee : Nat
  protocol_fee : Nat
  deriving Repr, DecidableEq

/-- `FeeBreakdown::sum`. -/
def FeeBreakdown.sum (fb : FeeBreakdown) : Nat :=
  fb.l1_referral_fee + fb.l2_referral_fee + fb.l3_referral_fee + fb.creator_fee +
    fb.cashback_fee + fb.protocol_fee

/-- `Config::get_fee_on_amount` (config.rs lines 234–318), translated bind for bind. -/
def Config.get_fee_on_amount (c : Config) (amount_in : Nat)
    (has_l1_referral has_l2_referral has_l3_referral : Bool)
    (cashback_tier : Option CashbackTier) : Res FeeBreakdown := do
  let l1_referral_fee ←
    if has_l1_referral then
      safe_mul_div_cast_u64 amount_in c.l1_referral_fee_basis_points FEE_DENOMINATOR .down
    else pure 0
  let l2_referral_fee ←
    if has_l2_referral then
      safe_mul_div_cast_u64 amount_in c.l2_referral_fee_basis_points FEE_DENOMINATOR .down
    else pure 0
  let l3_referral_fee ←
    if has_l3_referral then
      safe_mul_div_cast_u64 amount_in c.l3_referral_fee_basis_points FEE_DENOMINATOR .down
    else pure 0
  let cashback_bps := (cashback_tier.map CashbackTier.get_cashback_bps).getD 0
  let cashback_fee ← safe_mul_div_cast_u64 amount_in cashback_bps FEE_DENOMINATOR .down
  let creator_fee ←
    safe_mul_div_cast_u64 amount_in c.creator_fee_basis_points FEE_DENOMINATOR .down
  let has_referral := has_l1_referral || has_l2_referral || has_l3_referral
  let effective_bps ←
    if has_referral then safe_sub c.fee_basis_points c.referee_discount_basis_points
    else pure c.fee_basis_points
  let total_fee ← safe_mul_div_cast_u64 amount_in effective_bps FEE_DENOMINATOR .down
  let p1 ← safe_sub total_fee l1_referral_fee
  let p2 ← safe_sub p1 l2_referral_fee
  let p3 ← safe_sub p2 l3_referral_fee
  let p4 ← safe_sub p3 creator_fee
  let protocol_fee ← safe_sub p4 cashback_fee
  let amount ← safe_sub amount_in total_fee
  pure { amount, l1_referral_fee, l2_referral_fee, l3_referral_fee,
         creator_fee, cashback_fee, protocol_fee }

/-- `Config::get_max_swallow_quote_amount` (config.rs lines 320–328). -/
def Config.get_max_swallow_quote_amount (c : Config) : Res Nat :=
  safe_mul_div_cast_u64 c.migration_quote_threshold 20 100 .down

/-! ## Configuration parameters and validation
(`src/instructions/admin/ix_create_config.rs`) -/

/-- `ConfigParameters`. -/
structure ConfigParameters where
  base_token_flag : Nat
  base_decimal : Nat
  fee_basis_points : Nat
  l1_referral_fee_basis_points : Nat
  l2_referral_fee_basis_points : Nat
  l3_referral_fee_basis_points : Nat
  referee_discount_basis_points : Nat
  creator_fee_basis_points : Nat
  meme_fee_basis_points : Nat
  migration_fee_basis_points : Nat
  migration_base_threshold : Nat
  migration_quote_threshold : Nat
  initial_virtual_quote_reserve : Nat
  initial_virtual_base_reserve : Nat
  deriving Repr, DecidableEq

/-- `ConfigParameters::validate` (ix_create_config.rs lines 56–116): the pure
parameter checks, in source order. The initial `is_supported_quote_mint` check
concerns the external quote-mint account, not the parameters, and is outside
the embedded core (the claims range only over the fee/threshold parameters). -/
def ConfigParameters.validate (p : ConfigParameters) : Res Unit := do
  -- validate token type: `TokenType::try_from(base_token_flag)`, variants 0 and 1
  if p.base_token_flag ≥ 2 then throw .invalidTokenType
  -- validate token decimals
  else if ¬(6 ≤ p.base_decimal ∧ p.base_decimal ≤ 9) then throw .invalidTokenDecimals
  else do
    let s1 ← safe_add_u16 p.l1_referral_fee_basis_points p.l2_referral_fee_basis_points
    let s2 ← safe_add_u16 s1 p.l3_referral_fee_basis_points
    let s3 ← safe_add_u16 s2 p.creator_fee_basis_points
    let other_fee_basis_points_sum ← safe_add_u16 s3 CASHBACK_CHAMPION_BPS
    if ¬(p.fee_basis_points > other_fee_basis_points_sum) then throw .invalidFeeBasisPoints
    -- validate referral fee hierarchy
    else if ¬(p.l1_referral_fee_basis_points > p.l2_referral_fee_basis_points) then
      throw .invalidAmmConfig
    else if ¬(p.l2_referral_fee_basis_points > p.l3_referral_fee_basis_points) then
      throw .invalidAmmConfig
    -- validate creator trading fee percentage
    else if ¬(p.creator_fee_basis_points ≤ 1000) then throw .invalidCreatorTradingFeePercentage
    -- fee basis points configurations
    else if ¬(p.fee_basis_points ≤ MAX_FEE_BASIS_POINTS) then throw .invalidAmmConfig
    else if ¬(p.initial_virtual_quote_reserve > 0 ∧ p.initial_virtual_base_reserve > 0 ∧
              p.migration_base_threshold > 0) then throw .invalidAmmConfig
    else pure ()

/-- The field-for-field copy of the fee and threshold parameters that
`handle_create_config` performs into the `Config` account via `Config::init`
(the create-config revision in the sources carries virtual reserves instead of
a curve, so the price-curve fields of `Config` are left at their zero default). -/
def ConfigParameters.to_config (p : ConfigParameters) : Config :=
  { fee_basis_points := p.fee_basis_points
    l1_referral_fee_basis_points := p.l1_referral_fee_basis_points
    l2_referral_fee_basis_points := p.l2_referral_fee_basis_points
    l3_referral_fee_basis_points := p.l3_referral_fee_basis_points
    referee_discount_basis_points := p.referee_discount_basis_points
    creator_fee_basis_points := p.creator_fee_basis_points
    migration_fee_basis_points := p.migration_fee_basis_points
    migration_quote_threshold := p.migration_quote_threshold
    migration_base_threshold := p.migration_base_threshold
    swap_base_amount := 0
    initial_sqrt_price := 0
    migration_sqrt_price := 0
    curve := fun _ => { sqrt_price := 0, liquidity := 0 } }

/-! ## Curve math primitives

These live in the repository's `curve` module, which is not among the provided
source files (only its callers are). They are modelled from the spec, §4.3. -/

/-- Modelled from the spec: `delta_base(sqrt_lo, sqrt_hi, liquidity, rounding)` is the
token-0 amount spanned by a price interval at given liquidity,
`= liquidity * (sqrt_hi − sqrt_lo) / (sqrt_hi * sqrt_lo)`, computed in a wide (256-bit)
integer, rounded per the caller's rounding mode; a zero price bound is an arithmetic
fault (division by zero ⇒ `MathOverflow`). -/
def get_delta_amount_base_unsigned_256 (lower_sqrt_price upper_sqrt_price liquidity : Nat)
    (rounding : Rounding) : Res Nat :=
  if lower_sqrt_price = 0 ∨ upper_sqrt_price = 0 then .error .mathOverflow
  else
    let num := liquidity * (upper_sqrt_price - lower_sqrt_price)
    let den := lower_sqrt_price * upper_sqrt_price
    match rounding with
    | .up => .ok ((num + den - 1) / den)
    | .down => .ok (num / den)

/-- Modelled from the spec: the `u64`-returning variant of `delta_base`
(narrowing failure ⇒ `TypeCastFailed`). -/
def get_delta_amount_base_unsigned (lower_sqrt_price upper_sqrt_price liquidity : Nat)
    (rounding : Rounding) : Res Nat := do
  let v ← get_delta_amount_base_unsigned_256 lower_sqrt_price upper_sqrt_price liquidity rounding
  u64_cast v

/-- Modelled from the spec: `delta_quote(sqrt_lo, sqrt_hi, liquidity, rounding)`
`= liquidity * (sqrt_hi − sqrt_lo)` scaled down by the Q64.64 fixed-point base
(`2 ^ 128`), rounded per mode, in a wide integer. -/
def get_delta_amount_quote_unsigned_256 (lower_sqrt_price upper_sqrt_price liquidity : Nat)
    (rounding : Rounding) : Res Nat :=
  let prod := liquidity * (upper_sqrt_price - lower_sqrt_price)
  match rounding with
  | .up => .ok ((prod + (2 ^ 128 - 1)) / 2 ^ 128)
  | .down => .ok (prod / 2 ^ 128)

/-- Modelled from the spec: the `u64`-returning variant of `delta_quote`. -/
def get_delta_amount_quote_unsigned (lower_sqrt_price upper_sqrt_price liquidity : Nat)
    (rounding : Rounding) : Res Nat := do
  let v ← get_delta_amount_quote_unsigned_256 lower_sqrt_price upper_sqrt_price liquidity rounding
  u64_cast v

/-- Modelled from the spec: `next_sqrt_price_from_input(sqrt_price, liquidity, amount_in,
direction)`, the closed-form single-segment formula. For base-side input (selling,
price moves down): `√P' = ceil(L·√P / (L + Δx·√P))`; for quote-side input (buying,
price moves up): `√P' = √P + floor(Δy · 2^128 / L)`. Arithmetic faults (zero
divisor, `u128` overflow of the result) ⇒ `MathOverflow`. -/
def get_next_sqrt_price_from_input (sqrt_price liquidity amount_in : Nat)
    (base_for_input : Bool) : Res Nat :=
  if base_for_input then
    if liquidity + amount_in * sqrt_price = 0 then .error .mathOverflow
    else
      if (liquidity * sqrt_price + (liquidity + amount_in * sqrt_price) - 1) /
          (liquidity + amount_in * sqrt_price) < 2 ^ 128 then
        .ok ((liquidity * sqrt_price + (liquidity + amount_in * sqrt_price) - 1) /
          (liquidity + amount_in * sqrt_price))
      else .error .mathOverflow
  else
    if liquidity = 0 then .error .mathOverflow
    else
      if sqrt_price + amount_in * 2 ^ 128 / liquidity < 2 ^ 128 then
        .ok (sqrt_price + amount_in * 2 ^ 128 / liquidity)
      else .error .mathOverflow

/-! ## BondingCurve and swaps (`src/states/bonding_curve.rs`) -/

/-- `TradeDirection` (`src/params/swap.rs`). -/
inductive TradeDirection where
  | baseToQuote
  | quoteToBase
  deriving Repr, DecidableEq

/-- `MigrationStatus` (bonding_curve.rs, `repr(u8)` 0–3). -/
inductive MigrationStatus where
  | preBondingCurve
  | postBondingCurve
  | lockedVesting
  | createdPool
  deriving Repr, DecidableEq

/-- `MigrationStatus::try_from` on the stored `u8`. -/
def MigrationStatus.try_from (v : Nat) : Option MigrationStatus :=
  match v with
  | 0 => some .preBondingCurve
  | 1 => some .postBondingCurve
  | 2 => some .lockedVesting
  | 3 => some .createdPool
  | _ => none

/-- `BondingCurve` state (pubkeys modelled as opaque `Nat`s). -/
structure BondingCurve where
  config : Nat
  creator : Nat
  base_mint : Nat
  base_vault : Nat
  quote_vault : Nat
  base_reserve : Nat
  quote_reserve : Nat
  sqrt_price : Nat
  curve_type : Nat
  is_migrated : Nat
  migration_status : Nat
  curve_finish_timestamp : Nat
  protocol_fee : Nat
  creator_fee : Nat
  deriving Repr, DecidableEq

/-- `SwapResult`. -/
structure SwapResult where
  actual_input_amount : Nat
  output_amount : Nat
  next_sqrt_price : Nat
  trading_fee : Nat
  protocol_fee : Nat
  cashback_fee : Nat
  creator_fee : Nat
  l1_referral_fee : Nat
  l2_referral_fee : Nat
  l3_referral_fee : Nat
  deriving Repr, DecidableEq

/-- `SwapAmount` (output amount and next sqrt price of a curve walk). -/
structure SwapAmount where
  output_amount : Nat
  next_sqrt_price : Nat
  deriving Repr, DecidableEq

/-- The mutable locals of the two curve-walk loops
(`total_output_amount`, `current_sqrt_price`, `amount_left`), plus a flag
recording that the Rust `break` statement has fired. -/
structure WalkState where
  total_output_amount : Nat
  current_sqrt_price : Nat
  amount_left : Nat
  broke : Bool
  deriving Repr, DecidableEq

/-- One iteration of the buy-side loop of
`BondingCurve::get_swap_amount_from_quote_to_base` (bonding_curve.rs lines 214–260).
A fired `break` makes the remaining iterations pass the state through. -/
def buy_step (config : Config) (st : WalkState) (i : Fin 4) : Res WalkState :=
  if st.broke then .ok st
  else
    let pt := config.curve i
    if pt.sqrt_price = 0 ∨ pt.liquidity = 0 then .ok { st with broke := true }
    else if pt.sqrt_price > st.current_sqrt_price then do
      let max_amount_in ←
        get_delta_amount_quote_unsigned_256 st.current_sqrt_price pt.sqrt_price pt.liquidity .up
      if st.amount_left < max_amount_in then do
        let next_sqrt_price ←
          get_next_sqrt_price_from_input st.current_sqrt_price pt.liquidity st.amount_left false
        let output_amount ←
          get_delta_amount_base_unsigned st.current_sqrt_price next_sqrt_price pt.liquidity .down
        let total ← safe_add_u64 st.total_output_amount output_amount
        .ok { total_output_amount := total, current_sqrt_price := next_sqrt_price,
              amount_left := 0, broke := true }
      else do
        let next_sqrt_price := pt.sqrt_price
        let output_amount ←
          get_delta_amount_base_unsigned st.current_sqrt_price next_sqrt_price pt.liquidity .down
        let total ← safe_add_u64 st.total_output_amount output_amount
        let mi ← u64_cast max_amount_in
        let left ← safe_sub st.amount_left mi
        .ok { total_output_amount := total, current_sqrt_price := next_sqrt_price,
              amount_left := left, broke := false }
    else .ok st

/-- The buy-side loop, folded over the index sequence `0, 1, 2, 3`. -/
def buy_loop (config : Config) : List (Fin 4) → WalkState → Res WalkState
  | [], st => .ok st
  | i :: rest, st => do
      let st2 ← buy_step config st i
      buy_loop config rest st2

/-- One iteration of the sell-side loop of
`BondingCurve::get_swap_amount_from_base_to_quote` (bonding_curve.rs lines 133–179).
`i` is the pair `(curve[i], curve[i+1])` of the Rust indexing; a zero breakpoint
is `continue`, not `break`. -/
def sell_step (config : Config) (st : WalkState) (i : Fin 4 × Fin 4) : Res WalkState :=
  if st.broke then .ok st
  else
    let pt := config.curve i.1
    let ptNext := config.curve i.2
    if pt.sqrt_price = 0 ∨ pt.liquidity = 0 then .ok st
    else if pt.sqrt_price < st.current_sqrt_price then do
      let max_amount_in ←
        get_delta_amount_base_unsigned_256 pt.sqrt_price st.current_sqrt_price ptNext.liquidity .up
      if st.amount_left < max_amount_in then do
        let next_sqrt_price ←
          get_next_sqrt_price_from_input st.current_sqrt_price ptNext.liquidity st.amount_left true
        let output_amount ←
          get_delta_amount_quote_unsigned next_sqrt_price st.current_sqrt_price ptNext.liquidity .down
        let total ← safe_add_u64 st.total_output_amount output_amount
        .ok { total_output_amount := total, current_sqrt_price := next_sqrt_price,
              amount_left := 0, broke := true }
      else do
        let next_sqrt_price := pt.sqrt_price
        let output_amount ←
          get_delta_amount_quote_unsigned next_sqrt_price st.current_sqrt_price ptNext.liquidity .down
        let total ← safe_add_u64 st.total_output_amount output_amount
        let mi ← u64_cast max_amount_in
        let left ← safe_sub st.amount_left mi
        .ok { total_output_amount := total, current_sqrt_price := next_sqrt_price,
              amount_left := left, broke := false }
    else .ok st

/-- The sell-side loop, folded over `for i in (0..curve.len() - 1).rev()`,
i.e. the pairs `(2,3), (1,2), (0,1)`. -/
def sell_loop (config : Config) : List (Fin 4 × Fin 4) → WalkState → Res WalkState
  | [], st => .ok st
  | i :: rest, st => do
      let st2 ← sell_step config st i
      sell_loop config rest st2

/-- The initial walk state of both loops. -/
def init_walk (s : BondingCurve) (amount_in : Nat) : WalkState :=
  { total_output_amount := 0, current_sqrt_price := s.sqrt_price,
    amount_left := amount_in, broke := false }

/-- The sell-side index pairs `(curve[i], curve[i+1])` for `i = 2, 1, 0`. -/
def sell_indices : List (Fin 4 × Fin 4) := [(2, 3), (1, 2), (0, 1)]

/-- The buy-side indices `i = 0, 1, 2, 3`. -/
def buy_indices : List (Fin 4) := [0, 1, 2, 3]

/-- `BondingCurve::get_swap_amount_from_base_to_quote` (bonding_curve.rs lines 123–202):
the reverse walk, then the leftover (if any) is pushed through `curve[0].liquidity`
below the lowest breakpoint — with no swallow check. -/
def BondingCurve.get_swap_amount_from_base_to_quote (s : BondingCurve) (config : Config)
    (amount_in : Nat) : Res SwapAmount := do
  let st ← sell_loop config sell_indices (init_walk s amount_in)
  if st.amount_left ≠ 0 then do
    let next_sqrt_price ←
      get_next_sqrt_price_from_input st.current_sqrt_price (config.curve 0).liquidity
        st.amount_left true
    let output_amount ←
      get_delta_amount_quote_unsigned next_sqrt_price st.current_sqrt_price
        (config.curve 0).liquidity .down
    let total ← safe_add_u64 st.total_output_amount output_amount
    pure { output_amount := total, next_sqrt_price }
  else
    pure { output_amount := st.total_output_amount, next_sqrt_price := st.current_sqrt_price }

/-- `BondingCurve::get_swap_amount_from_quote_to_base` (bonding_curve.rs lines 204–272):
the forward walk, then `require!(amount_left <= config.get_max_swallow_quote_amount()?)`
failing with `SwapAmountIsOverAThreshold`. -/
def BondingCurve.get_swap_amount_from_quote_to_base (s : BondingCurve) (config : Config)
    (amount_in : Nat) : Res SwapAmount := do
  let st ← buy_loop config buy_indices (init_walk s amount_in)
  let max_swallow ← config.get_max_swallow_quote_amount
  if st.amount_left ≤ max_swallow then
    pure { output_amount := st.total_output_amount, next_sqrt_price := st.current_sqrt_price }
  else throw .swapAmountIsOverAThreshold

/-- The QuoteToBase fee computation with the graduation cap, inlined in
`BondingCurve::get_swap_result` (bonding_curve.rs lines 292–355): compute the
naive `FeeBreakdown`; if the post-fee amount would push the effective quote
reserve (`quote_reserve − creator_fee − protocol_fee`) past
`migration_quote_threshold`, recompute fees on the capped gross input
`ceil(capped_before_fees · FEE_DENOMINATOR / (FEE_DENOMINATOR − effective_bps))`
and require the capped result still reaches the threshold
(`InvalidMigrationCalculation` otherwise). -/
def quote_to_base_fee (s : BondingCurve) (config : Config) (amount_in : Nat)
    (has_l1_referral has_l2_referral has_l3_referral : Bool)
    (cashback_tier : Option CashbackTier) : Res FeeBreakdown := do
  let fee_breakdown ← config.get_fee_on_amount amount_in
    has_l1_referral has_l2_referral has_l3_referral cashback_tier
  let t1 ← safe_sub s.quote_reserve s.creator_fee
  let t2 ← safe_sub t1 s.protocol_fee
  let naive ← safe_add_u64 t2 fee_breakdown.amount
  if naive > config.migration_quote_threshold then do
    let has_referral := has_l1_referral || has_l2_referral || has_l3_referral
    let b1 ← safe_sub config.migration_quote_threshold s.quote_reserve
    let b2 ← safe_add_u64 b1 s.creator_fee
    let capped_amount_in_before_fees ← safe_add_u64 b2 s.protocol_fee
    let eff_res : Res Nat :=
      if has_referral then
        safe_sub config.fee_basis_points config.referee_discount_basis_points
      else pure config.fee_basis_points
    let effective_fee_basis_points ← eff_res
    let den ← safe_sub FEE_DENOMINATOR effective_fee_basis_points
    let capped_amount_in ←
      safe_mul_div_cast_u64 capped_amount_in_before_fees FEE_DENOMINATOR den .up
    let fee_breakdown2 ← config.get_fee_on_amount capped_amount_in
      has_l1_referral has_l2_referral has_l3_referral cashback_tier
    -- Ensure that the amount after fees is still above the migration threshold
    let u1 ← safe_sub s.quote_reserve s.creator_fee
    let u2 ← safe_sub u1 s.protocol_fee
    let capped ← safe_add_u64 u2 fee_breakdown2.amount
    if capped ≥ config.migration_quote_threshold then pure fee_breakdown2
    else throw .invalidMigrationCalculation
  else pure fee_breakdown

/-- `BondingCurve::get_swap_result` (bonding_curve.rs lines 274–406). For
QuoteToBase the fee (with graduation cap) applies to the input and the net amount
is walked; for BaseToQuote the full input is walked and the fee applies to the
gross output. -/
def BondingCurve.get_swap_result (s : BondingCurve) (config : Config) (amount_in : Nat)
    (trade_direction : TradeDirection)
    (has_l1_referral has_l2_referral has_l3_referral : Bool)
    (cashback_tier : Option CashbackTier) : Res SwapResult :=
  match trade_direction with
  | .quoteToBase => do
      let fb ← quote_to_base_fee s config amount_in
        has_l1_referral has_l2_referral has_l3_referral cashback_tier
      let sa ← s.get_swap_amount_from_quote_to_base config fb.amount
      pure { actual_input_amount := fb.amount
             output_amount := sa.output_amount
             next_sqrt_price := sa.next_sqrt_price
             trading_fee := fb.sum
             protocol_fee := fb.protocol_fee
             cashback_fee := fb.cashback_fee
             creator_fee := fb.creator_fee
             l1_referral_fee := fb.l1_referral_fee
             l2_referral_fee := fb.l2_referral_fee
             l3_referral_fee := fb.l3_referral_fee }
  | .baseToQuote => do
      let sa ← s.get_swap_amount_from_base_to_quote config amount_in
      let fb ← config.get_fee_on_amount sa.output_amount
        has_l1_referral has_l2_referral has_l3_referral cashback_tier
      pure { actual_input_amount := amount_in
             output_amount := fb.amount
             next_sqrt_price := sa.next_sqrt_price
             trading_fee := fb.sum
             protocol_fee := fb.protocol_fee
             cashback_fee := fb.cashback_fee
             creator_fee := fb.creator_fee
             l1_referral_fee := fb.l1_referral_fee
             l2_referral_fee := fb.l2_referral_fee
             l3_referral_fee := fb.l3_referral_fee }

/-- `BondingCurve::apply_swap_result` (bonding_curve.rs lines 408–431). -/
def BondingCurve.apply_swap_result (s : BondingCurve) (swap_result : SwapResult)
    (trade_direction : TradeDirection) : Res BondingCurve := do
  let s1 := { s with sqrt_price := swap_result.next_sqrt_price }
  match trade_direction with
  | .baseToQuote => do
      let br ← safe_add_u64 s1.base_reserve swap_result.actual_input_amount
      let qr ← safe_sub s1.quote_reserve swap_result.output_amount
      let cf ← safe_add_u64 s1.creator_fee swap_result.creator_fee
      let pf ← safe_add_u64 s1.protocol_fee swap_result.protocol_fee
      pure { s1 with base_reserve := br, quote_reserve := qr,
                     creator_fee := cf, protocol_fee := pf }
  | .quoteToBase => do
      let qr ← safe_add_u64 s1.quote_reserve swap_result.actual_input_amount
      let br ← safe_sub s1.base_reserve swap_result.output_amount
      let cf ← safe_add_u64 s1.creator_fee swap_result.creator_fee
      let pf ← safe_add_u64 s1.protocol_fee swap_result.protocol_fee
      pure { s1 with base_reserve := br, quote_reserve := qr,
                     creator_fee := cf, protocol_fee := pf }

/-- `BondingCurve::is_curve_complete`. -/
def BondingCurve.is_curve_complete (s : BondingCurve) (migration_threshold : Nat) : Bool :=
  decide (s.quote_reserve ≥ migration_threshold)

/-- `BondingCurve::get_migration_progress`. -/
def BondingCurve.get_migration_progress (s : BondingCurve) : Res MigrationStatus :=
  match MigrationStatus.try_from s.migration_status with
  | some m => .ok m
  | none => .error .typeCastFailed

/-- `BondingCurve::claim_protocol_fee`: returns the accrued amount and the state
with the counter zeroed. -/
def BondingCurve.claim_protocol_fee (s : BondingCurve) : Nat × BondingCurve :=
  (s.protocol_fee, { s with protocol_fee := 0 })

/-- `BondingCurve::claim_creator_fee`. -/
def BondingCurve.claim_creator_fee (s : BondingCurve) : Nat × BondingCurve :=
  (s.creator_fee, { s with creator_fee := 0 })

/-! ## Instruction handler cores -/

/-- The pure core of `handle_swap` (`src/instructions/ix_swap.rs` lines 209–243):
the zero-amount check, the graduation check, the cashback-tier read, the swap
computation, slippage, and the state update. Account plumbing and token
transfers around it belong to external collaborators. Failure yields no updated
state (the surrounding runtime discards all writes of a failed instruction). -/
def handle_swap_core (config : Config) (curve : BondingCurve)
    (amount_in minimum_amount_out : Nat) (trade_direction : TradeDirection)
    (has_l1_referral has_l2_referral has_l3_referral : Bool)
    (cashback : Option CashbackAccount) : Res (SwapResult × BondingCurve) := do
  if amount_in = 0 then throw .amountIsZero
  else if curve.is_curve_complete config.migration_quote_threshold then throw .poolIsCompleted
  else do
    let cashback_tier ←
      match cashback with
      | some acc => do
          let t ← acc.get_tier
          pure (some t)
      | none => pure none
    let swap_result ← curve.get_swap_result config amount_in trade_direction
      has_l1_referral has_l2_referral has_l3_referral cashback_tier
    if swap_result.output_amount < minimum_amount_out then throw .exceededSlippage
    else do
      let curve2 ← curve.apply_swap_result swap_result trade_direction
      pure (swap_result, curve2)

/-- The pure core of `handle_claim_creator_fee`
(`src/instructions/ix_claim_creator_fee.rs` lines 53–57): claim, then
`require!(amount > 0, NothingToClaim)`; on success the claimed amount is
transferred. -/
def handle_claim_creator_fee_core (curve : BondingCurve) : Res (Nat × BondingCurve) :=
  let r := curve.claim_creator_fee
  if r.1 = 0 then .error .nothingToClaim else .ok r

/-- The pure core of `handle_claim_protocol_fee`
(`src/instructions/admin/ix_claim_protocol_fee.rs` lines 60–76): once migration
has completed (`CreatedPool`), the transferred amount is the whole quote-vault
balance (the accrued counter is still cleared); otherwise it is the accrued
protocol fee. Zero is `NothingToClaim`. -/
def handle_claim_protocol_fee_core (curve : BondingCurve) (quote_vault_amount : Nat) :
    Res (Nat × BondingCurve) := do
  let migration_status ← curve.get_migration_progress
  let r :=
    if migration_status = MigrationStatus.createdPool then
      (quote_vault_amount, (curve.claim_protocol_fee).2)
    else curve.claim_protocol_fee
  if r.1 = 0 then throw .nothingToClaim else pure r

/-! ## Concrete instances used by witnesses and counterexamples -/

/-- A configuration accepted by `ConfigParameters::validate`: 10% gross fee,
referral tiers 3 > 2 > 1 bps, no referee discount, no creator fee,
migration quote threshold 1000. -/
def params_a : ConfigParameters :=
  { base_token_flag := 0
    base_decimal := 6
    fee_basis_points := 10000
    l1_referral_fee_basis_points := 3
    l2_referral_fee_basis_points := 2
    l3_referral_fee_basis_points := 1
    referee_discount_basis_points := 0
    creator_fee_basis_points := 0
    meme_fee_basis_points := 0
    migration_fee_basis_points := 0
    migration_base_threshold := 1
    migration_quote_threshold := 1000
    initial_virtual_quote_reserve := 1
    initial_virtual_base_reserve := 1 }

/-- A configuration accepted by `ConfigParameters::validate` whose referee
discount (400 bps) exceeds the gross fee minus the referral tiers
(fee 426 bps, tiers 100 > 50 > 25 bps). -/
def params_b : ConfigParameters :=
  { base_token_flag := 0
    base_decimal := 6
    fee_basis_points := 426
    l1_referral_fee_basis_points := 100
    l2_referral_fee_basis_points := 50
    l3_referral_fee_basis_points := 25
    referee_discount_basis_points := 400
    creator_fee_basis_points := 0
    meme_fee_basis_points := 0
    migration_fee_basis_points := 0
    migration_base_threshold := 1
    migration_quote_threshold := 1000
    initial_virtual_quote_reserve := 1
    initial_virtual_base_reserve := 1 }

/-- `params_a` with a 1001-bps creator fee (1.001% of a trade). -/
def params_c : ConfigParameters :=
  { params_a with fee_basis_points := 2000, creator_fee_basis_points := 1001 }

/-- `params_a` with a 500-bps creator fee. -/
def params_d : ConfigParameters :=
  { params_a with fee_basis_points := 2000, creator_fee_basis_points := 500 }

/-- The `Config` of `params_a` with a single curve breakpoint at
`sqrt_price = 2^65` with liquidity `2^70` (Q64.64). -/
def config_a : Config :=
  { params_a.to_config with
      curve := fun i =>
        if i = 0 then { sqrt_price := 2 ^ 65, liquidity := 2 ^ 70 }
        else { sqrt_price := 0, liquidity := 0 } }

/-- A bonding-curve state one quote unit below the migration threshold of
`params_a`, priced at `sqrt_price = 2^64` (i.e. 1.0 in Q64.64). -/
def state_a : BondingCurve :=
  { config := 0
    creator := 0
    base_mint := 0
    base_vault := 0
    quote_vault := 0
    base_reserve := 1000000000
    quote_reserve := 999
    sqrt_price := 2 ^ 64
    curve_type := 0
    is_migrated := 0
    migration_status := 0
    curve_finish_timestamp := 0
    protocol_fee := 0
    creator_fee := 0 }

/-- A sample swap result used to exercise `apply_swap_result`. -/
def swap_result_a : SwapResult :=
  { actual_input_amount := 100
    output_amount := 40
    next_sqrt_price := 3
    trading_fee := 7
    protocol_fee := 4
    cashback_fee := 1
    creator_fee := 2
    l1_referral_fee := 0
    l2_referral_fee := 0
    l3_referral_fee := 0 }

/-! ## Inversion lemmas for the checked operations -/

theorem bind_eq_ok {α β : Type} {e : Res α} {f : α → Res β} {b : β} :
    e >>= f = .ok b ↔ ∃ a, e = .ok a ∧ f a = .ok b := by
  cases e <;> simp [Bind.bind, Except.bind]

theorem pure_eq_ok {α : Type} {a b : α} : (pure a : Res α) = .ok b ↔ a = b := by
  simp [pure, Except.pure]

theorem throw_ne_ok {α : Type} {e : AmmError} {b : α} :
    (throw e : Res α) ≠ .ok b := by
  simp [throw, throwThe, MonadExceptOf.throw]

theorem ok_bind {α β : Type} {a : α} {f : α → Res β} : (Except.ok a : Res α) >>= f = f a := rfl

theorem error_bind {α β : Type} {e : AmmError} {f : α → Res β} :
    (Except.error e : Res α) >>= f = .error e := rfl

theorem safe_sub_eq_ok {a b v : Nat} : safe_sub a b = .ok v ↔ b ≤ a ∧ v = a - b := by
  unfold safe_sub
  split <;> simp_all <;> omega

theorem safe_add_u64_eq_ok {a b v : Nat} :
    safe_add_u64 a b = .ok v ↔ a + b < 2 ^ 64 ∧ v = a + b := by
  unfold safe_add_u64
  split <;> simp_all <;> omega

theorem safe_add_u16_eq_ok {a b v : Nat} :
    safe_add_u16 a b = .ok v ↔ a + b < 2 ^ 16 ∧ v = a + b := by
  unfold safe_add_u16
  split <;> simp_all <;> omega

theorem u64_cast_eq_ok {n v : Nat} : u64_cast n = .ok v ↔ n < 2 ^ 64 ∧ v = n := by
  unfold u64_cast
  split <;> simp_all <;> omega

theorem smdc_down_eq_ok {x y d v : Nat} :
    safe_mul_div_cast_u64 x y d .down = .ok v ↔
      x * y < 2 ^ 128 ∧ d ≠ 0 ∧ x * y / d < 2 ^ 64 ∧ v = x * y / d := by
  simp only [safe_mul_div_cast_u64]
  split_ifs with h1 h2 h3
  · exact ⟨(fun hc => nomatch hc), fun ⟨ha, _⟩ => absurd ha (not_lt.mpr h1)⟩
  · exact ⟨(fun hc => nomatch hc), fun ⟨_, hd, _⟩ => absurd h2 hd⟩
  · exact ⟨(fun hc => nomatch hc), fun ⟨_, _, hlt, _⟩ => absurd hlt (not_lt.mpr h3)⟩
  · simp only [Except.ok.injEq]
    exact ⟨fun hv => ⟨not_le.mp h1, h2, not_le.mp h3, hv.symm⟩, fun ⟨_, _, _, hv⟩ => hv.symm⟩

theorem smdc_up_eq_ok {x y d v : Nat} :
    safe_mul_div_cast_u64 x y d .up = .ok v ↔
      x * y < 2 ^ 128 ∧ x * y + d < 2 ^ 128 ∧ d ≠ 0 ∧
      (x * y + d - 1) / d < 2 ^ 64 ∧ v = (x * y + d - 1) / d := by
  simp only [safe_mul_div_cast_u64]
  split_ifs with h1 h2 h3 h4 h5
  · exact ⟨(fun hc => nomatch hc), fun ⟨ha, _⟩ => absurd ha (not_lt.mpr h1)⟩
  · exact ⟨(fun hc => nomatch hc), fun ⟨_, hb, _⟩ => absurd hb (not_lt.mpr h2)⟩
  · exact ⟨(fun hc => nomatch hc), fun ⟨_, _, hd, _⟩ => by omega⟩
  · exact ⟨(fun hc => nomatch hc), fun ⟨_, _, hd, _⟩ => absurd h4 hd⟩
  · exact ⟨(fun hc => nomatch hc), fun ⟨_, _, _, hlt, _⟩ => absurd hlt (not_lt.mpr h5)⟩
  · simp only [Except.ok.injEq]
    exact ⟨fun hv => ⟨not_le.mp h1, not_le.mp h2, h4, not_le.mp h5, hv.symm⟩,
           fun ⟨_, _, _, _, hv⟩ => hv.symm⟩

/-! ## Claim C1: fee conservation -/

/-- C1: for every amount, referral-flag combination and optional cashback tier for
which `Config::get_fee_on_amount` returns `Ok`, the returned breakdown satisfies
`amount + protocol_fee + l1 + l2 + l3 + creator_fee + cashback_fee = amount_in`
exactly. -/
theorem c1_fee_conservation (c : Config) (amount_in : Nat) (f1 f2 f3 : Bool)
    (tier : Option CashbackTier) (fb : FeeBreakdown)
    (h : c.get_fee_on_amount amount_in f1 f2 f3 tier = .ok fb) :
    fb.amount + fb.protocol_fee + fb.l1_referral_fee + fb.l2_referral_fee +
      fb.l3_referral_fee + fb.creator_fee + fb.cashback_fee = amount_in := by
  cases f1 <;> cases f2 <;> cases f3 <;>
  · simp only [Config.get_fee_on_amount, bind_eq_ok, pure_eq_ok, Bool.or_self, Bool.or_false,
      Bool.false_or, Bool.or_true, Bool.true_or, if_true, if_false, Bool.false_eq_true,
      ite_true, ite_false] at h
    obtain ⟨l1f, h1, l2f, h2, l3f, h3, cbf, h4, crf, h5, tf, h7,
      p1, hp1, q1, hq1, q2, hq2, q3, hq3, q4, hq4, pf, hpf, am, ham, hfb⟩ := h
    rw [safe_sub_eq_ok] at hq1 hq2 hq3 hq4 hpf ham
    subst hfb
    simp only
    omega

/-- Witness for C1 at `params_a` (10% fee, Champion cashback) on `amount_in = 1000000`:
the breakdown is `amount 900000, cashback 2500, protocol 97500`. -/
theorem c1_fee_conservation_witness :
    (900000 : Nat) + 97500 + 0 + 0 + 0 + 0 + 2500 = 1000000 :=
  c1_fee_conservation params_a.to_config 1000000 false false false (some .champion)
    { amount := 900000, l1_referral_fee := 0, l2_referral_fee := 0, l3_referral_fee := 0,
      creator_fee := 0, cashback_fee := 2500, protocol_fee := 97500 } (by rfl)

/-! ## Claim C4: total-fee formula -/

/-- C4: whenever `Config::get_fee_on_amount` returns `Ok`, the total fee
(`amount_in` minus the net amount) is exactly
`floor(amount_in * effective_bps / 100000)`, with
`effective_bps = fee_basis_points - referee_discount_basis_points` when a
referral flag is set and `fee_basis_points` otherwise, and the net amount is
`amount_in` minus that fee. -/
theorem c4_total_fee_formula (c : Config) (amount_in : Nat) (f1 f2 f3 : Bool)
    (tier : Option CashbackTier) (fb : FeeBreakdown)
    (h : c.get_fee_on_amount amount_in f1 f2 f3 tier = .ok fb) :
    amount_in - fb.amount =
      amount_in * (if f1 || f2 || f3 then
          c.fee_basis_points - c.referee_discount_basis_points
        else c.fee_basis_points) / FEE_DENOMINATOR ∧
    fb.amount = amount_in -
      amount_in * (if f1 || f2 || f3 then
          c.fee_basis_points - c.referee_discount_basis_points
        else c.fee_basis_points) / FEE_DENOMINATOR := by
  cases f1 <;> cases f2 <;> cases f3 <;>
  · simp only [Config.get_fee_on_amount, bind_eq_ok, pure_eq_ok, Bool.or_self, Bool.or_false,
      Bool.false_or, Bool.or_true, Bool.true_or, if_true, if_false, Bool.false_eq_true,
      ite_true, ite_false] at h ⊢
    obtain ⟨l1f, h1, l2f, h2, l3f, h3, cbf, h4, crf, h5, tf, h7,
      p1, hp1, q1, hq1, q2, hq2, q3, hq3, q4, hq4, pf, hpf, am, ham, hfb⟩ := h
    first
    | (rw [safe_sub_eq_ok] at h7
       obtain ⟨hd7, h7⟩ := h7)
    | skip
    subst h7
    rw [smdc_down_eq_ok] at hp1
    obtain ⟨-, -, -, hp1⟩ := hp1
    rw [safe_sub_eq_ok] at ham
    obtain ⟨hamle, ham⟩ := ham
    subst hfb
    simp only
    rw [← hp1]
    omega

/-- Witness for C4 at `params_a` with an L1 referral on `amount_in = 1000000`:
the effective rate is `10000 - 0` bps out of 100000, so the total fee is 100000
and the net amount 900000. -/
theorem c4_total_fee_formula_witness :
    (1000000 : Nat) - 900000 = 1000000 * (10000 - 0) / FEE_DENOMINATOR ∧
    (900000 : Nat) = 1000000 - 1000000 * (10000 - 0) / FEE_DENOMINATOR :=
  c4_total_fee_formula params_a.to_config 1000000 true false false none
    { amount := 900000, l1_referral_fee := 30, l2_referral_fee := 0, l3_referral_fee := 0,
      creator_fee := 0, cashback_fee := 0, protocol_fee := 99970 } (by rfl)

/-! ## Claim C9: cashback tier read normalization -/

/-- C9: `CashbackAccount::get_tier` always succeeds and returns the tier of ordinal
`min(stored, 6)` — values 0–6 map to Wood–Champion and anything above 6 is
clamped to Champion — while `CashbackAccount::update_tier` stores any byte
without validation. -/
theorem c9_tier_read_normalization :
    (∀ acc : CashbackAccount,
       Except.map CashbackTier.ordinal acc.get_tier = .ok (min acc.current_tier 6)) ∧
    (∀ (acc : CashbackAccount) (v : Nat), (acc.update_tier v).current_tier = v) := by
  constructor
  · intro acc
    unfold CashbackAccount.get_tier
    by_cases h : acc.current_tier > 6
    · have hm : min acc.current_tier 6 = 6 := by omega
      rw [if_pos h, hm]
      rfl
    · rw [if_neg h]
      have h6 : acc.current_tier ≤ 6 := by omega
      set n := acc.current_tier with hn
      interval_cases n <;> rfl
  · intro acc v
    rfl

/-! ## Claim C10: quote/apply separation and swap frame -/

/-- C10: `BondingCurve::apply_swap_result` modifies only `sqrt_price`,
`base_reserve`, `quote_reserve`, `creator_fee` and `protocol_fee`: the fields
`config`, `creator`, `base_mint`, `base_vault`, `quote_vault`, `curve_type`,
`is_migrated`, `migration_status` and `curve_finish_timestamp` are unchanged,
and `sqrt_price` becomes the result's next price while the two fee accumulators
grow by exactly the swap's fees. (`get_swap_result` takes `&self` and is
embedded as a pure function of the state — a failed computation leaves all
state unchanged by construction.) -/
theorem c10_apply_swap_frame (s : BondingCurve) (r : SwapResult) (d : TradeDirection)
    (s2 : BondingCurve) (h : s.apply_swap_result r d = .ok s2) :
    s2.config = s.config ∧ s2.creator = s.creator ∧ s2.base_mint = s.base_mint ∧
    s2.base_vault = s.base_vault ∧ s2.quote_vault = s.quote_vault ∧
    s2.curve_type = s.curve_type ∧ s2.is_migrated = s.is_migrated ∧
    s2.migration_status = s.migration_status ∧
    s2.curve_finish_timestamp = s.curve_finish_timestamp ∧
    s2.sqrt_price = r.next_sqrt_price ∧
    s2.creator_fee = s.creator_fee + r.creator_fee ∧
    s2.protocol_fee = s.protocol_fee + r.protocol_fee := by
  cases d <;>
  · simp only [BondingCurve.apply_swap_result, bind_eq_ok, pure_eq_ok] at h
    obtain ⟨x1, hx1, x2, hx2, x3, hx3, x4, hx4, hs2⟩ := h
    rw [safe_add_u64_eq_ok] at hx1 hx3 hx4
    rw [safe_sub_eq_ok] at hx2
    subst hs2
    refine ⟨rfl, rfl, rfl, rfl, rfl, rfl, rfl, rfl, rfl, rfl, ?_, ?_⟩ <;>
      simp only <;> omega

/-- Witness for C10: applying `swap_result_a` to `state_a` in the BaseToQuote
direction yields the expected updated state. -/
theorem c10_apply_swap_frame_witness :
    (0 : Nat) = 0 ∧ (0 : Nat) = 0 ∧ (0 : Nat) = 0 ∧ (0 : Nat) = 0 ∧ (0 : Nat) = 0 ∧
    (0 : Nat) = 0 ∧ (0 : Nat) = 0 ∧ (0 : Nat) = 0 ∧ (0 : Nat) = 0 ∧
    (3 : Nat) = 3 ∧ (2 : Nat) = 0 + 2 ∧ (4 : Nat) = 0 + 4 :=
  c10_apply_swap_frame state_a swap_result_a .baseToQuote
    { config := 0, creator := 0, base_mint := 0, base_vault := 0, quote_vault := 0
      base_reserve := 1000000100, quote_reserve := 959, sqrt_price := 3
      curve_type := 0, is_migrated := 0, migration_status := 0
      curve_finish_timestamp := 0, protocol_fee := 4, creator_fee := 2 } (by rfl)

/-! ## Claim C7: swap preconditions -/

/-- C7 counterexample: on a curve whose quote reserve (2000) has passed the
migration threshold (1000), a request with `amount_in = 0` fails with
`AmountIsZero`, not `PoolIsCompleted` — the zero-amount check precedes the
graduation check — refuting the claim that every request on a completed curve
fails with `PoolIsCompleted`. -/
theorem c7_counterexample :
    ({ state_a with quote_reserve := 2000 } : BondingCurve).is_curve_complete
        (params_a.to_config).migration_quote_threshold = true ∧
    handle_swap_core params_a.to_config { state_a with quote_reserve := 2000 } 0 0
        .quoteToBase false false false none = .error .amountIsZero := by
  exact ⟨rfl, rfl⟩

/-- C7 (amended): `handle_swap` fails with `AmountIsZero` on every zero-amount
request, and fails with `PoolIsCompleted` on every request with positive
`amount_in` on a curve whose quote reserve has reached the migration threshold;
both failures happen before the swap is computed or applied, so no curve state
is modified. -/
theorem c7_swap_preconditions (config : Config) (curve : BondingCurve)
    (amount_in minimum_amount_out : Nat) (d : TradeDirection) (f1 f2 f3 : Bool)
    (cashback : Option CashbackAccount) :
    (amount_in = 0 →
      handle_swap_core config curve amount_in minimum_amount_out d f1 f2 f3 cashback =
        .error .amountIsZero) ∧
    (amount_in ≠ 0 → config.migration_quote_threshold ≤ curve.quote_reserve →
      handle_swap_core config curve amount_in minimum_amount_out d f1 f2 f3 cashback =
        .error .poolIsCompleted) := by
  constructor
  · intro h0
    simp only [handle_swap_core, if_pos h0]
    rfl
  · intro hne hthr
    have hc : curve.is_curve_complete config.migration_quote_threshold = true := by
      simp [BondingCurve.is_curve_complete, hthr]
    simp only [handle_swap_core, if_neg hne, hc, ite_true]
    rfl

/-- Witness for C7 (amended) at a completed curve with a positive amount. -/
theorem c7_swap_preconditions_witness :
    handle_swap_core params_a.to_config { state_a with quote_reserve := 2000 } 7 0
        .quoteToBase false false false none = .error .poolIsCompleted :=
  (c7_swap_preconditions params_a.to_config { state_a with quote_reserve := 2000 } 7 0
      .quoteToBase false false false none).2 (by decide) (by decide)

/-! ## Claim C8: fee claiming -/

/-- C8 counterexample: once `migration_status = CreatedPool`, the protocol-fee
claim handler transfers the whole quote-vault balance (here 100), not the
previously accrued protocol fee (here 5) — refuting the claim that a successful
claim always transfers exactly the accrued amount. -/
theorem c8_counterexample :
    ({ state_a with protocol_fee := 5, migration_status := 3 } : BondingCurve).protocol_fee
      = 5 ∧
    handle_claim_protocol_fee_core { state_a with protocol_fee := 5, migration_status := 3 }
        100 =
      .ok (100, { state_a with protocol_fee := 0, migration_status := 3 }) ∧
    (100 : Nat) ≠ 5 := by
  exact ⟨rfl, rfl, by decide⟩

/-- C8 (amended): `claim_protocol_fee` and `claim_creator_fee` return the prior
accrued value and zero the counter; the creator-fee handler, and the
protocol-fee handler before migration has completed (`migration_status < 3`),
report a zero accrued balance as `NothingToClaim` and otherwise transfer
exactly the accrued amount, leaving the counter at zero. (Once
`migration_status = CreatedPool` the protocol handler instead transfers the
whole quote-vault balance.) -/
theorem c8_fee_claiming :
    (∀ s : BondingCurve, s.claim_protocol_fee = (s.protocol_fee, { s with protocol_fee := 0 })) ∧
    (∀ s : BondingCurve, s.claim_creator_fee = (s.creator_fee, { s with creator_fee := 0 })) ∧
    (∀ s : BondingCurve, s.creator_fee = 0 →
       handle_claim_creator_fee_core s = .error .nothingToClaim) ∧
    (∀ s : BondingCurve, s.creator_fee ≠ 0 →
       handle_claim_creator_fee_core s = .ok (s.creator_fee, { s with creator_fee := 0 })) ∧
    (∀ (s : BondingCurve) (vault : Nat), s.migration_status < 3 → s.protocol_fee = 0 →
       handle_claim_protocol_fee_core s vault = .error .nothingToClaim) ∧
    (∀ (s : BondingCurve) (vault : Nat), s.migration_status < 3 → s.protocol_fee ≠ 0 →
       handle_claim_protocol_fee_core s vault =
         .ok (s.protocol_fee, { s with protocol_fee := 0 })) := by
  refine ⟨fun s => rfl, fun s => rfl, ?_, ?_, ?_, ?_⟩
  · intro s h0
    simp only [handle_claim_creator_fee_core, BondingCurve.claim_creator_fee, if_pos h0]
  · intro s h0
    simp only [handle_claim_creator_fee_core, BondingCurve.claim_creator_fee, if_neg h0]
  · intro s vault hm h0
    have h3 : s.migration_status = 0 ∨ s.migration_status = 1 ∨ s.migration_status = 2 := by
      omega
    rcases h3 with hm3 | hm3 | hm3 <;>
      simp [handle_claim_protocol_fee_core, BondingCurve.get_migration_progress, hm3,
        MigrationStatus.try_from, ok_bind, BondingCurve.claim_protocol_fee, h0, throw,
        throwThe, MonadExceptOf.throw]
  · intro s vault hm h0
    have h3 : s.migration_status = 0 ∨ s.migration_status = 1 ∨ s.migration_status = 2 := by
      omega
    rcases h3 with hm3 | hm3 | hm3 <;>
      simp [handle_claim_protocol_fee_core, BondingCurve.get_migration_progress, hm3,
        MigrationStatus.try_from, ok_bind, BondingCurve.claim_protocol_fee, h0, pure,
        Except.pure]

/-- Witness for C8 (amended): claiming an accrued creator fee of 9 transfers 9
and zeroes the counter. -/
theorem c8_fee_claiming_witness :
    handle_claim_creator_fee_core { state_a with creator_fee := 9 } =
      .ok (({ state_a with creator_fee := 9 } : BondingCurve).creator_fee,
           { { state_a with creator_fee := 9 } with creator_fee := 0 }) :=
  c8_fee_claiming.2.2.2.1 { state_a with creator_fee := 9 } (by decide)

/-! ## Forward evaluation lemmas and a characterization of `validate` -/

theorem safe_sub_of_le {a b : Nat} (h : b ≤ a) : safe_sub a b = .ok (a - b) := by
  unfold safe_sub
  rw [if_pos h]

theorem safe_add_u16_of_lt {a b : Nat} (h : a + b < 2 ^ 16) :
    safe_add_u16 a b = .ok (a + b) := by
  unfold safe_add_u16
  rw [if_pos h]

theorem safe_add_u64_of_lt {a b : Nat} (h : a + b < 2 ^ 64) :
    safe_add_u64 a b = .ok (a + b) := by
  unfold safe_add_u64
  rw [if_pos h]

theorem nat_div_add_div_le (a b c : Nat) : a / c + b / c ≤ (a + b) / c := by
  rcases Nat.eq_zero_or_pos c with h | h
  · subst h
    simp
  · rw [Nat.le_div_iff_mul_le h, Nat.add_mul]
    have ha := Nat.div_mul_le_self a c
    have hb := Nat.div_mul_le_self b c
    omega

theorem muldiv_down_small {x y : Nat} (hx : x < 2 ^ 64) (hy : y ≤ FEE_DENOMINATOR) :
    safe_mul_div_cast_u64 x y FEE_DENOMINATOR .down = .ok (x * y / FEE_DENOMINATOR) := by
  apply smdc_down_eq_ok.mpr
  have h1 : x * y ≤ x * FEE_DENOMINATOR := Nat.mul_le_mul_left x hy
  have h2 : x * y / FEE_DENOMINATOR ≤ x := by
    have h3 : x * y / FEE_DENOMINATOR ≤ x * FEE_DENOMINATOR / FEE_DENOMINATOR :=
      Nat.div_le_div_right h1
    rwa [Nat.mul_div_cancel x (by decide : 0 < FEE_DENOMINATOR)] at h3
  refine ⟨?_, by decide, by omega, rfl⟩
  simp only [FEE_DENOMINATOR] at h1
  omega

/-- `ConfigParameters::validate` succeeds exactly when all its parameter checks
hold (with the `u16` sum `l1+l2+l3+creator+CASHBACK_CHAMPION_BPS` not wrapping). -/
theorem validate_eq_ok_iff (p : ConfigParameters) :
    p.validate = .ok () ↔
      (p.base_token_flag < 2 ∧ (6 ≤ p.base_decimal ∧ p.base_decimal ≤ 9) ∧
       p.l1_referral_fee_basis_points + p.l2_referral_fee_basis_points +
         p.l3_referral_fee_basis_points + p.creator_fee_basis_points +
         CASHBACK_CHAMPION_BPS < 2 ^ 16 ∧
       p.l1_referral_fee_basis_points + p.l2_referral_fee_basis_points +
         p.l3_referral_fee_basis_points + p.creator_fee_basis_points +
         CASHBACK_CHAMPION_BPS < p.fee_basis_points ∧
       p.l2_referral_fee_basis_points < p.l1_referral_fee_basis_points ∧
       p.l3_referral_fee_basis_points < p.l2_referral_fee_basis_points ∧
       p.creator_fee_basis_points ≤ 1000 ∧
       p.fee_basis_points ≤ MAX_FEE_BASIS_POINTS ∧
       0 < p.initial_virtual_quote_reserve ∧ 0 < p.initial_virtual_base_reserve ∧
       0 < p.migration_base_threshold) := by
  unfold ConfigParameters.validate
  constructor
  · intro h
    by_cases hc1 : p.base_token_flag ≥ 2
    · rw [if_pos hc1] at h
      exact absurd h throw_ne_ok
    rw [if_neg hc1] at h
    by_cases hc2 : ¬(6 ≤ p.base_decimal ∧ p.base_decimal ≤ 9)
    · rw [if_pos hc2] at h
      exact absurd h throw_ne_ok
    rw [if_neg hc2] at h
    rw [not_not] at hc2
    simp only [bind_eq_ok] at h
    obtain ⟨s1, hs1, s2, hs2, s3, hs3, s4, hs4, h⟩ := h
    rw [safe_add_u16_eq_ok] at hs1 hs2 hs3 hs4
    obtain ⟨hb1, hs1⟩ := hs1
    obtain ⟨hb2, hs2⟩ := hs2
    obtain ⟨hb3, hs3⟩ := hs3
    obtain ⟨hb4, hs4⟩ := hs4
    subst hs1
    subst hs2
    subst hs3
    subst hs4
    by_cases hc3 : ¬(p.fee_basis_points > p.l1_referral_fee_basis_points +
        p.l2_referral_fee_basis_points + p.l3_referral_fee_basis_points +
        p.creator_fee_basis_points + CASHBACK_CHAMPION_BPS)
    · rw [if_pos hc3] at h
      exact absurd h throw_ne_ok
    rw [if_neg hc3] at h
    by_cases hc4 : ¬(p.l1_referral_fee_basis_points > p.l2_referral_fee_basis_points)
    · rw [if_pos hc4] at h
      exact absurd h throw_ne_ok
    rw [if_neg hc4] at h
    by_cases hc5 : ¬(p.l2_referral_fee_basis_points > p.l3_referral_fee_basis_points)
    · rw [if_pos hc5] at h
      exact absurd h throw_ne_ok
    rw [if_neg hc5] at h
    by_cases hc6 : ¬(p.creator_fee_basis_points ≤ 1000)
    · rw [if_pos hc6] at h
      exact absurd h throw_ne_ok
    rw [if_neg hc6] at h
    by_cases hc7 : ¬(p.fee_basis_points ≤ MAX_FEE_BASIS_POINTS)
    · rw [if_pos hc7] at h
      exact absurd h throw_ne_ok
    rw [if_neg hc7] at h
    by_cases hc8 : ¬(p.initial_virtual_quote_reserve > 0 ∧
        p.initial_virtual_base_reserve > 0 ∧ p.migration_base_threshold > 0)
    · rw [if_pos hc8] at h
      exact absurd h throw_ne_ok
    rw [not_not] at hc3 hc4 hc5 hc6 hc8
    exact ⟨by omega, hc2, hb4, hc3, hc4, hc5, hc6, by omega, hc8.1, hc8.2.1, hc8.2.2⟩
  · intro ⟨h1, h2, h4, h5, h6, h7, h8, h9, h10, h11, h12⟩
    rw [if_neg (by omega : ¬(p.base_token_flag ≥ 2)), if_neg (not_not_intro h2)]
    rw [safe_add_u16_of_lt (by omega), ok_bind, safe_add_u16_of_lt (by omega), ok_bind,
        safe_add_u16_of_lt (by omega), ok_bind, safe_add_u16_of_lt (by omega), ok_bind]
    rw [if_neg (not_not_intro h5), if_neg (not_not_intro h6), if_neg (not_not_intro h7),
        if_neg (not_not_intro h8), if_neg (not_not_intro h9),
        if_neg (not_not_intro ⟨h10, h11, h12⟩)]
    rfl

/-! ## Claim C6: creator-fee cap at configuration time -/

/-- C6 counterexample: `creator_fee_basis_points = 1001` implies a per-trade
creator fee of at most 1.001% of the trade — far below 10% (at the worst-case
amount 100000 the fee is 1001 and ten times that is within the amount) — yet
`ConfigParameters::validate` rejects it with `InvalidCreatorTradingFeePercentage`,
refuting the claimed equivalence with a 10% cap (the real cap is 1000 bps out of
100000, i.e. 1%). -/
theorem c6_counterexample :
    params_c.validate = .error .invalidCreatorTradingFeePercentage ∧
    10 * (100000 * 1001 / FEE_DENOMINATOR) ≤ 100000 := by
  exact ⟨rfl, by decide⟩

/-- C6 (amended): when every check of `validate` other than the creator-fee cap
passes, `validate` accepts exactly when `creator_fee_basis_points ≤ 1000`,
rejecting larger values with `InvalidCreatorTradingFeePercentage`; the accepted
values are exactly those whose implied per-trade creator fee
`floor(amount_in * creator_bps / 100000)` is at most 1% (not 10%) of `amount_in`. -/
theorem c6_creator_fee_cap (p : ConfigParameters) (a : Nat)
    (h1 : p.base_token_flag < 2)
    (h2 : 6 ≤ p.base_decimal) (h3 : p.base_decimal ≤ 9)
    (h4 : p.l1_referral_fee_basis_points + p.l2_referral_fee_basis_points +
         p.l3_referral_fee_basis_points + p.creator_fee_basis_points +
         CASHBACK_CHAMPION_BPS < 2 ^ 16)
    (h5 : p.l1_referral_fee_basis_points + p.l2_referral_fee_basis_points +
         p.l3_referral_fee_basis_points + p.creator_fee_basis_points +
         CASHBACK_CHAMPION_BPS < p.fee_basis_points)
    (h6 : p.l2_referral_fee_basis_points < p.l1_referral_fee_basis_points)
    (h7 : p.l3_referral_fee_basis_points < p.l2_referral_fee_basis_points)
    (h8 : p.fee_basis_points ≤ MAX_FEE_BASIS_POINTS)
    (h9 : 0 < p.initial_virtual_quote_reserve)
    (h10 : 0 < p.initial_virtual_base_reserve)
    (h11 : 0 < p.migration_base_threshold) :
    (p.validate = .ok () ↔ p.creator_fee_basis_points ≤ 1000) ∧
    (1000 < p.creator_fee_basis_points →
       p.validate = .error .invalidCreatorTradingFeePercentage) ∧
    (p.creator_fee_basis_points ≤ 1000 →
       100 * (a * p.creator_fee_basis_points / FEE_DENOMINATOR) ≤ a) := by
  refine ⟨?_, ?_, ?_⟩
  · rw [validate_eq_ok_iff]
    constructor
    · intro h
      exact h.2.2.2.2.2.2.1
    · intro hcr
      exact ⟨h1, ⟨h2, h3⟩, h4, h5, h6, h7, hcr, h8, h9, h10, h11⟩
  · intro hcr
    unfold ConfigParameters.validate
    rw [if_neg (by omega : ¬(p.base_token_flag ≥ 2)), if_neg (not_not_intro ⟨h2, h3⟩)]
    rw [safe_add_u16_of_lt (by omega), ok_bind, safe_add_u16_of_lt (by omega), ok_bind,
        safe_add_u16_of_lt (by omega), ok_bind, safe_add_u16_of_lt (by omega), ok_bind]
    rw [if_neg (not_not_intro h5), if_neg (not_not_intro h6), if_neg (not_not_intro h7),
        if_pos (by omega : ¬(p.creator_fee_basis_points ≤ 1000))]
    rfl
  · intro hcr
    have hm : a * p.creator_fee_basis_points ≤ a * 1000 := Nat.mul_le_mul_left a hcr
    have hq : a * p.creator_fee_basis_points / FEE_DENOMINATOR ≤ a * 1000 / FEE_DENOMINATOR :=
      Nat.div_le_div_right hm
    have hs : a * 1000 / FEE_DENOMINATOR * FEE_DENOMINATOR ≤ a * 1000 :=
      Nat.div_mul_le_self _ _
    simp only [FEE_DENOMINATOR] at hq hs ⊢
    omega

/-- Witness for C6 (amended): at `params_d` (creator fee 500 bps) the acceptance
criterion and the 1% bound at `amount_in = 12345` hold. -/
theorem c6_creator_fee_cap_witness :
    (params_d.validate = .ok () ↔ params_d.creator_fee_basis_points ≤ 1000) ∧
    100 * (12345 * params_d.creator_fee_basis_points / FEE_DENOMINATOR) ≤ 12345 :=
  ⟨(c6_creator_fee_cap params_d 12345 (by decide) (by decide) (by decide) (by decide)
      (by decide) (by decide) (by decide) (by decide) (by decide) (by decide) (by decide)).1,
   (c6_creator_fee_cap params_d 12345 (by decide) (by decide) (by decide) (by decide)
      (by decide) (by decide) (by decide) (by decide) (by decide) (by decide) (by decide)).2.2
     (by decide)⟩

/-! ## Claim C3: protocol-fee underflow under validated configuration -/

theorem pure_bind_res {α β : Type} {a : α} {f : α → Res β} : (pure a : Res α) >>= f = f a := rfl

theorem cashback_bps_le (tier : Option CashbackTier) :
    (tier.map CashbackTier.get_cashback_bps).getD 0 ≤ CASHBACK_CHAMPION_BPS := by
  cases tier with
  | none => decide
  | some t => cases t <;> decide

theorem fee_components_le_total (a u v w x y F : Nat)
    (h : u + v + w + x + y ≤ F) :
    a * u / FEE_DENOMINATOR + a * v / FEE_DENOMINATOR + a * w / FEE_DENOMINATOR +
      a * x / FEE_DENOMINATOR + a * y / FEE_DENOMINATOR ≤ a * F / FEE_DENOMINATOR := by
  have k1 := nat_div_add_div_le (a * u) (a * v) FEE_DENOMINATOR
  have k2 := nat_div_add_div_le (a * u + a * v) (a * w) FEE_DENOMINATOR
  have k3 := nat_div_add_div_le (a * u + a * v + a * w) (a * x) FEE_DENOMINATOR
  have k4 := nat_div_add_div_le (a * u + a * v + a * w + a * x) (a * y) FEE_DENOMINATOR
  have k5 : (a * u + a * v + a * w + a * x + a * y) / FEE_DENOMINATOR ≤
      a * F / FEE_DENOMINATOR := by
    apply Nat.div_le_div_right
    have : a * u + a * v + a * w + a * x + a * y = a * (u + v + w + x + y) := by
      ring
    rw [this]
    exact Nat.mul_le_mul_left a h
  omega

theorem fee_le_amount {a F : Nat} (hF : F ≤ FEE_DENOMINATOR) :
    a * F / FEE_DENOMINATOR ≤ a := by
  have h1 : a * F ≤ a * FEE_DENOMINATOR := Nat.mul_le_mul_left a hF
  have h2 : a * F / FEE_DENOMINATOR ≤ a * FEE_DENOMINATOR / FEE_DENOMINATOR :=
    Nat.div_le_div_right h1
  rwa [Nat.mul_div_cancel a (by decide : 0 < FEE_DENOMINATOR)] at h2

theorem to_config_fee_bps (p : ConfigParameters) :
    p.to_config.fee_basis_points = p.fee_basis_points := rfl

theorem to_config_l1 (p : ConfigParameters) :
    p.to_config.l1_referral_fee_basis_points = p.l1_referral_fee_basis_points := rfl

theorem to_config_l2 (p : ConfigParameters) :
    p.to_config.l2_referral_fee_basis_points = p.l2_referral_fee_basis_points := rfl

theorem to_config_l3 (p : ConfigParameters) :
    p.to_config.l3_referral_fee_basis_points = p.l3_referral_fee_basis_points := rfl

theorem to_config_disc (p : ConfigParameters) :
    p.to_config.referee_discount_basis_points = p.referee_discount_basis_points := rfl

theorem to_config_creator (p : ConfigParameters) :
    p.to_config.creator_fee_basis_points = p.creator_fee_basis_points := rfl

theorem to_config_mqt (p : ConfigParameters) :
    p.to_config.migration_quote_threshold = p.migration_quote_threshold := rfl

/-- C3 counterexample: `params_b` passes `ConfigParameters::validate`
(fee 426 > 100+50+25+0+250, hierarchy 100 > 50 > 25, creator 0 ≤ 1000,
fee ≤ 10000) yet with an L1 referral active on `amount_in = 100000` the
effective rate is `426 − 400 = 26` bps, so `total_fee = 26` while
`l1_referral_fee = 100`, and the protocol-fee subtraction underflows with
`MathOverflow`: validation does not constrain `referee_discount_basis_points`,
so component fees can exceed the discounted total. -/
theorem c3_counterexample :
    params_b.validate = .ok () ∧
    (params_b.to_config).get_fee_on_amount 100000 true false false none =
      .error .mathOverflow := by
  exact ⟨rfl, rfl⟩

/-- C3 (amended): for every `Config` built from parameters accepted by
`ConfigParameters::validate` whose `referee_discount_basis_points` is zero, and
for every `u64` amount, referral-flag combination and cashback tier,
`Config::get_fee_on_amount` succeeds — in particular the component fees never
exceed the total fee, so the protocol-fee subtraction cannot underflow. -/
theorem c3_protocol_fee_no_underflow (p : ConfigParameters) (amount_in : Nat)
    (f1 f2 f3 : Bool) (tier : Option CashbackTier)
    (hv : p.validate = .ok ())
    (hd : p.referee_discount_basis_points = 0)
    (ha : amount_in < 2 ^ 64) :
    ((p.to_config).get_fee_on_amount amount_in f1 f2 f3 tier).isOk = true := by
  rw [validate_eq_ok_iff] at hv
  obtain ⟨-, -, hb16, hlt, -, -, -, hfmax, -, -, -⟩ := hv
  simp only [CASHBACK_CHAMPION_BPS] at hb16 hlt
  simp only [MAX_FEE_BASIS_POINTS] at hfmax
  have hcb := cashback_bps_le tier
  simp only [CASHBACK_CHAMPION_BPS] at hcb
  have hy1 : p.l1_referral_fee_basis_points ≤ FEE_DENOMINATOR := by
    simp only [FEE_DENOMINATOR]
    omega
  have hy2 : p.l2_referral_fee_basis_points ≤ FEE_DENOMINATOR := by
    simp only [FEE_DENOMINATOR]
    omega
  have hy3 : p.l3_referral_fee_basis_points ≤ FEE_DENOMINATOR := by
    simp only [FEE_DENOMINATOR]
    omega
  have hycr : p.creator_fee_basis_points ≤ FEE_DENOMINATOR := by
    simp only [FEE_DENOMINATOR]
    omega
  have hyfee : p.fee_basis_points ≤ FEE_DENOMINATOR := by
    simp only [FEE_DENOMINATOR]
    omega
  have hycb : (tier.map CashbackTier.get_cashback_bps).getD 0 ≤ FEE_DENOMINATOR := by
    simp only [FEE_DENOMINATOR]
    omega
  have hTle : amount_in * p.fee_basis_points / FEE_DENOMINATOR ≤ amount_in :=
    fee_le_amount hyfee
  cases f1 <;> cases f2 <;> cases f3 <;>
  · simp only [Config.get_fee_on_amount, to_config_fee_bps, to_config_l1, to_config_l2,
      to_config_l3, to_config_disc, to_config_creator, hd, Bool.or_self, Bool.or_false,
      Bool.false_or, Bool.or_true, Bool.true_or, eq_self_iff_true, if_true,
      Bool.false_eq_true, if_false]
    first
    | rw [muldiv_down_small ha hy1, ok_bind]
    | rw [pure_bind_res]
    first
    | rw [muldiv_down_small ha hy2, ok_bind]
    | rw [pure_bind_res]
    first
    | rw [muldiv_down_small ha hy3, ok_bind]
    | rw [pure_bind_res]
    rw [muldiv_down_small ha hycb, ok_bind]
    rw [muldiv_down_small ha hycr, ok_bind]
    first
    | (rw [safe_sub_of_le (Nat.zero_le _), ok_bind]
       simp only [Nat.sub_zero])
    | rw [pure_bind_res]
    rw [muldiv_down_small ha hyfee, ok_bind]
    have key := fee_components_le_total amount_in
      p.l1_referral_fee_basis_points p.l2_referral_fee_basis_points
      p.l3_referral_fee_basis_points p.creator_fee_basis_points
      ((tier.map CashbackTier.get_cashback_bps).getD 0)
      p.fee_basis_points (by omega)
    rw [safe_sub_of_le (by simp only [FEE_DENOMINATOR] at *; omega), ok_bind]
    rw [safe_sub_of_le (by simp only [FEE_DENOMINATOR] at *; omega), ok_bind]
    rw [safe_sub_of_le (by simp only [FEE_DENOMINATOR] at *; omega), ok_bind]
    rw [safe_sub_of_le (by simp only [FEE_DENOMINATOR] at *; omega), ok_bind]
    rw [safe_sub_of_le (by simp only [FEE_DENOMINATOR] at *; omega), ok_bind]
    rw [safe_sub_of_le hTle, ok_bind]
    rfl

/-- Witness for C3 (amended) at `params_a` (Champion cashback, L1 referral,
`amount_in = 77777`). -/
theorem c3_protocol_fee_no_underflow_witness :
    ((params_a.to_config).get_fee_on_amount 77777 true false false
      (some .champion)).isOk = true :=
  c3_protocol_fee_no_underflow params_a 77777 true false false (some .champion)
    (by rfl) (by rfl) (by decide)

/-! ## Error-identity lemmas: which errors each operation can produce -/

theorem throw_eq_error {α : Type} {e : AmmError} : (throw e : Res α) = .error e := rfl

theorem pure_ne_error {α : Type} {a : α} {c : AmmError} : (pure a : Res α) ≠ .error c := by
  intro h
  cases h

theorem error_ne_error {α : Type} {c e : AmmError} (h : e ≠ c) :
    (Except.error e : Res α) ≠ .error c := by
  intro hc
  cases hc
  exact h rfl

theorem throw_ne_error {α : Type} {c e : AmmError} (h : e ≠ c) :
    (throw e : Res α) ≠ .error c := by
  rw [throw_eq_error]
  exact error_ne_error h

theorem bind_ne_error {α β : Type} {c : AmmError} {e : Res α} {f : α → Res β}
    (he : e ≠ .error c) (hf : ∀ a, f a ≠ .error c) : e >>= f ≠ .error c := by
  cases e with
  | error x =>
      rw [error_bind]
      intro hc
      cases hc
      exact he rfl
  | ok a =>
      rw [ok_bind]
      exact hf a

theorem bind_eq_error {α β : Type} {c : AmmError} {e : Res α} {f : α → Res β} :
    e >>= f = .error c ↔ e = .error c ∨ ∃ a, e = .ok a ∧ f a = .error c := by
  cases e <;> simp [ok_bind, error_bind]

theorem safe_sub_ne_error {a b : Nat} {c : AmmError} (hmo : c ≠ .mathOverflow) :
    safe_sub a b ≠ .error c := by
  unfold safe_sub
  split
  · exact pure_ne_error
  · exact error_ne_error (Ne.symm hmo)

theorem safe_add_u64_ne_error {a b : Nat} {c : AmmError} (hmo : c ≠ .mathOverflow) :
    safe_add_u64 a b ≠ .error c := by
  unfold safe_add_u64
  split
  · exact pure_ne_error
  · exact error_ne_error (Ne.symm hmo)

theorem u64_cast_ne_error {n : Nat} {c : AmmError} (htc : c ≠ .typeCastFailed) :
    u64_cast n ≠ .error c := by
  unfold u64_cast
  split
  · exact pure_ne_error
  · exact error_ne_error (Ne.symm htc)

theorem smdc_ne_error {x y d : Nat} {r : Rounding} {c : AmmError}
    (hmo : c ≠ .mathOverflow) (htc : c ≠ .typeCastFailed) :
    safe_mul_div_cast_u64 x y d r ≠ .error c := by
  unfold safe_mul_div_cast_u64
  cases r <;> split_ifs <;>
    first
    | exact pure_ne_error
    | exact error_ne_error (Ne.symm hmo)
    | exact error_ne_error (Ne.symm htc)

theorem delta_base_256_ne_error {lo hi L : Nat} {r : Rounding} {c : AmmError}
    (hmo : c ≠ .mathOverflow) :
    get_delta_amount_base_unsigned_256 lo hi L r ≠ .error c := by
  unfold get_delta_amount_base_unsigned_256
  cases r <;> split <;>
    first
    | exact pure_ne_error
    | exact error_ne_error (Ne.symm hmo)

theorem delta_base_ne_error {lo hi L : Nat} {r : Rounding} {c : AmmError}
    (hmo : c ≠ .mathOverflow) (htc : c ≠ .typeCastFailed) :
    get_delta_amount_base_unsigned lo hi L r ≠ .error c := by
  unfold get_delta_amount_base_unsigned
  exact bind_ne_error (delta_base_256_ne_error hmo) (fun v => u64_cast_ne_error htc)

theorem delta_quote_256_ne_error {lo hi L : Nat} {r : Rounding} {c : AmmError} :
    get_delta_amount_quote_unsigned_256 lo hi L r ≠ .error c := by
  unfold get_delta_amount_quote_unsigned_256
  cases r <;> exact pure_ne_error

theorem delta_quote_ne_error {lo hi L : Nat} {r : Rounding} {c : AmmError}
    (htc : c ≠ .typeCastFailed) :
    get_delta_amount_quote_unsigned lo hi L r ≠ .error c := by
  unfold get_delta_amount_quote_unsigned
  exact bind_ne_error delta_quote_256_ne_error (fun v => u64_cast_ne_error htc)

theorem next_price_ne_error {p L a : Nat} {dir : Bool} {c : AmmError}
    (hmo : c ≠ .mathOverflow) :
    get_next_sqrt_price_from_input p L a dir ≠ .error c := by
  unfold get_next_sqrt_price_from_input
  cases dir <;> split_ifs <;>
    first
    | exact pure_ne_error
    | exact error_ne_error (Ne.symm hmo)

theorem get_fee_ne_error (cf : Config) (a : Nat) (f1 f2 f3 : Bool)
    (tier : Option CashbackTier) {c : AmmError}
    (hmo : c ≠ .mathOverflow) (htc : c ≠ .typeCastFailed) :
    cf.get_fee_on_amount a f1 f2 f3 tier ≠ .error c := by
  cases f1 <;> cases f2 <;> cases f3 <;>
  · simp only [Config.get_fee_on_amount, Bool.or_self, Bool.or_false, Bool.false_or,
      Bool.or_true, Bool.true_or, eq_self_iff_true, if_true, Bool.false_eq_true, if_false]
    apply bind_ne_error
    · first
      | exact smdc_ne_error hmo htc
      | exact safe_sub_ne_error hmo
      | exact pure_ne_error
    intro v1
    apply bind_ne_error
    · first
      | exact smdc_ne_error hmo htc
      | exact safe_sub_ne_error hmo
      | exact pure_ne_error
    intro v2
    apply bind_ne_error
    · first
      | exact smdc_ne_error hmo htc
      | exact safe_sub_ne_error hmo
      | exact pure_ne_error
    intro v3
    apply bind_ne_error
    · first
      | exact smdc_ne_error hmo htc
      | exact safe_sub_ne_error hmo
      | exact pure_ne_error
    intro v4
    apply bind_ne_error
    · first
      | exact smdc_ne_error hmo htc
      | exact safe_sub_ne_error hmo
      | exact pure_ne_error
    intro v5
    apply bind_ne_error
    · first
      | exact smdc_ne_error hmo htc
      | exact safe_sub_ne_error hmo
      | exact pure_ne_error
    intro v6
    apply bind_ne_error
    · first
      | exact smdc_ne_error hmo htc
      | exact safe_sub_ne_error hmo
      | exact pure_ne_error
    intro v7
    apply bind_ne_error
    · first
      | exact smdc_ne_error hmo htc
      | exact safe_sub_ne_error hmo
      | exact pure_ne_error
    intro v8
    apply bind_ne_error
    · first
      | exact smdc_ne_error hmo htc
      | exact safe_sub_ne_error hmo
      | exact pure_ne_error
    intro v9
    apply bind_ne_error
    · first
      | exact smdc_ne_error hmo htc
      | exact safe_sub_ne_error hmo
      | exact pure_ne_error
    intro v10
    apply bind_ne_error
    · first
      | exact smdc_ne_error hmo htc
      | exact safe_sub_ne_error hmo
      | exact pure_ne_error
    intro v11
    apply bind_ne_error
    · first
      | exact smdc_ne_error hmo htc
      | exact safe_sub_ne_error hmo
      | exact pure_ne_error
    intro v12
    apply bind_ne_error
    · first
      | exact smdc_ne_error hmo htc
      | exact safe_sub_ne_error hmo
      | exact pure_ne_error
    intro v13
    exact pure_ne_error

theorem ok_ne_error {α : Type} {a : α} {c : AmmError} : (Except.ok a : Res α) ≠ .error c :=
  fun hc => nomatch hc

theorem buy_step_ne_error (cf : Config) (st : WalkState) (i : Fin 4) {c : AmmError}
    (hmo : c ≠ .mathOverflow) (htc : c ≠ .typeCastFailed) :
    buy_step cf st i ≠ .error c := by
  unfold buy_step
  split
  · exact ok_ne_error
  dsimp only []
  split
  · exact ok_ne_error
  split
  · apply bind_ne_error delta_quote_256_ne_error
    intro mx
    split
    · apply bind_ne_error (next_price_ne_error hmo)
      intro np
      apply bind_ne_error (delta_base_ne_error hmo htc)
      intro out
      apply bind_ne_error (safe_add_u64_ne_error hmo)
      intro tot
      exact ok_ne_error
    · apply bind_ne_error (delta_base_ne_error hmo htc)
      intro out
      apply bind_ne_error (safe_add_u64_ne_error hmo)
      intro tot
      apply bind_ne_error (u64_cast_ne_error htc)
      intro mi
      apply bind_ne_error (safe_sub_ne_error hmo)
      intro lf
      exact ok_ne_error
  · exact ok_ne_error

theorem sell_step_ne_error (cf : Config) (st : WalkState) (i : Fin 4 × Fin 4) {c : AmmError}
    (hmo : c ≠ .mathOverflow) (htc : c ≠ .typeCastFailed) :
    sell_step cf st i ≠ .error c := by
  unfold sell_step
  split
  · exact ok_ne_error
  dsimp only []
  split
  · exact ok_ne_error
  split
  · apply bind_ne_error (delta_base_256_ne_error hmo)
    intro mx
    split
    · apply bind_ne_error (next_price_ne_error hmo)
      intro np
      apply bind_ne_error (delta_quote_ne_error htc)
      intro out
      apply bind_ne_error (safe_add_u64_ne_error hmo)
      intro tot
      exact ok_ne_error
    · apply bind_ne_error (delta_quote_ne_error htc)
      intro out
      apply bind_ne_error (safe_add_u64_ne_error hmo)
      intro tot
      apply bind_ne_error (u64_cast_ne_error htc)
      intro mi
      apply bind_ne_error (safe_sub_ne_error hmo)
      intro lf
      exact ok_ne_error
  · exact ok_ne_error

theorem buy_loop_ne_error (cf : Config) (l : List (Fin 4)) (st : WalkState) {c : AmmError}
    (hmo : c ≠ .mathOverflow) (htc : c ≠ .typeCastFailed) :
    buy_loop cf l st ≠ .error c := by
  induction l generalizing st with
  | nil => exact pure_ne_error
  | cons i rest ih =>
      exact bind_ne_error (buy_step_ne_error cf st i hmo htc) (fun st2 => ih st2)

theorem sell_loop_ne_error (cf : Config) (l : List (Fin 4 × Fin 4)) (st : WalkState)
    {c : AmmError} (hmo : c ≠ .mathOverflow) (htc : c ≠ .typeCastFailed) :
    sell_loop cf l st ≠ .error c := by
  induction l generalizing st with
  | nil => exact pure_ne_error
  | cons i rest ih =>
      exact bind_ne_error (sell_step_ne_error cf st i hmo htc) (fun st2 => ih st2)

/-- The sell path can only fail with an arithmetic error — in particular it never
raises `SwapAmountIsOverAThreshold` (there is no swallow check on this side). -/
theorem sell_swap_ne_error (s : BondingCurve) (cf : Config) (a : Nat) {c : AmmError}
    (hmo : c ≠ .mathOverflow) (htc : c ≠ .typeCastFailed) :
    s.get_swap_amount_from_base_to_quote cf a ≠ .error c := by
  unfold BondingCurve.get_swap_amount_from_base_to_quote
  apply bind_ne_error (sell_loop_ne_error cf _ _ hmo htc)
  intro st
  split
  · apply bind_ne_error (next_price_ne_error hmo)
    intro np
    apply bind_ne_error (delta_quote_ne_error htc)
    intro out
    apply bind_ne_error (safe_add_u64_ne_error hmo)
    intro tot
    exact pure_ne_error
  · exact pure_ne_error

theorem buy_swap_ne_error (s : BondingCurve) (cf : Config) (a : Nat) {c : AmmError}
    (hmo : c ≠ .mathOverflow) (htc : c ≠ .typeCastFailed)
    (hsw : c ≠ .swapAmountIsOverAThreshold) :
    s.get_swap_amount_from_quote_to_base cf a ≠ .error c := by
  unfold BondingCurve.get_swap_amount_from_quote_to_base
  apply bind_ne_error (buy_loop_ne_error cf _ _ hmo htc)
  intro st
  apply bind_ne_error (smdc_ne_error hmo htc)
  intro mx
  split
  · exact pure_ne_error
  · exact throw_ne_error (Ne.symm hsw)

/-! ## Claim C5: swallow tolerance -/

theorem max_swallow_eq (cf : Config) (h : cf.migration_quote_threshold < 2 ^ 64) :
    cf.get_max_swallow_quote_amount = .ok (cf.migration_quote_threshold * 20 / 100) := by
  unfold Config.get_max_swallow_quote_amount
  apply smdc_down_eq_ok.mpr
  refine ⟨by omega, by omega, ?_, rfl⟩
  have h1 : cf.migration_quote_threshold * 20 ≤ cf.migration_quote_threshold * 100 :=
    Nat.mul_le_mul_left _ (by omega)
  have h2 : cf.migration_quote_threshold * 20 / 100 ≤
      cf.migration_quote_threshold * 100 / 100 := Nat.div_le_div_right h1
  rw [Nat.mul_div_cancel _ (by omega : 0 < 100)] at h2
  omega

/-- C5 counterexample: a BaseToQuote (sell) swap that exhausts all configured
breakpoints with 500 units of input unconsumed — far more than the swallow
tolerance `floor(1000 * 20 / 100) = 200` — succeeds instead of failing with
`SwapAmountIsOverAThreshold`: the sell side performs no swallow check at all
(the leftover is pushed through `curve[0].liquidity` below the lowest
breakpoint), refuting the claim for the BaseToQuote direction. -/
theorem c5_counterexample :
    (params_a.to_config).get_max_swallow_quote_amount = .ok 200 ∧
    state_a.get_swap_amount_from_base_to_quote params_a.to_config 500 =
      .ok { output_amount := 0, next_sqrt_price := 0 } ∧
    state_a.get_swap_result params_a.to_config 500 .baseToQuote false false false none =
      .ok { actual_input_amount := 500, output_amount := 0, next_sqrt_price := 0,
            trading_fee := 0, protocol_fee := 0, cashback_fee := 0, creator_fee := 0,
            l1_referral_fee := 0, l2_referral_fee := 0, l3_referral_fee := 0 } := by
  exact ⟨rfl, rfl, rfl⟩

/-- C5 (amended): only the QuoteToBase direction enforces the swallow tolerance:
when the buy-side curve walk completes leaving `amount_left` unconsumed, the
swap fails with `SwapAmountIsOverAThreshold` iff `amount_left` exceeds
`floor(migration_quote_threshold * 20 / 100)`, and succeeds (returning the
walk's output and final price) otherwise; the BaseToQuote direction never
raises `SwapAmountIsOverAThreshold` — its leftover input is consumed below the
lowest breakpoint with no tolerance check. -/
theorem c5_swallow_tolerance :
    (∀ (s : BondingCurve) (cf : Config) (a : Nat),
       s.get_swap_amount_from_base_to_quote cf a ≠ .error .swapAmountIsOverAThreshold) ∧
    (∀ (s : BondingCurve) (cf : Config) (a : Nat) (st : WalkState),
       cf.migration_quote_threshold < 2 ^ 64 →
       buy_loop cf buy_indices (init_walk s a) = .ok st →
       ((s.get_swap_amount_from_quote_to_base cf a = .error .swapAmountIsOverAThreshold ↔
           cf.migration_quote_threshold * 20 / 100 < st.amount_left) ∧
        (st.amount_left ≤ cf.migration_quote_threshold * 20 / 100 →
           s.get_swap_amount_from_quote_to_base cf a =
             .ok { output_amount := st.total_output_amount,
                   next_sqrt_price := st.current_sqrt_price }))) := by
  constructor
  · intro s cf a
    exact sell_swap_ne_error s cf a (by decide) (by decide)
  · intro s cf a st hthr hw
    unfold BondingCurve.get_swap_amount_from_quote_to_base
    rw [hw, ok_bind, max_swallow_eq cf hthr, ok_bind]
    by_cases hle : st.amount_left ≤ cf.migration_quote_threshold * 20 / 100
    · rw [if_pos hle]
      refine ⟨⟨(fun hc => nomatch hc), fun hlt => absurd hle (by omega)⟩, fun _ => rfl⟩
    · rw [if_neg hle]
      exact ⟨⟨fun _ => by omega, fun _ => rfl⟩, fun hle2 => absurd hle2 hle⟩

/-- Witness for C5 (amended): with the all-zero curve of `params_a` the buy walk
breaks immediately, leaving the full input unconsumed; at `amount_in = 500` the
tolerance 200 is exceeded, so the swap fails with `SwapAmountIsOverAThreshold`. -/
theorem c5_swallow_tolerance_witness :
    (state_a.get_swap_amount_from_quote_to_base params_a.to_config 500 =
        .error .swapAmountIsOverAThreshold ↔
      (params_a.to_config).migration_quote_threshold * 20 / 100 <
        ({ total_output_amount := 0, current_sqrt_price := 2 ^ 64, amount_left := 500,
           broke := true } : WalkState).amount_left) ∧
    (({ total_output_amount := 0, current_sqrt_price := 2 ^ 64, amount_left := 500,
        broke := true } : WalkState).amount_left ≤
        (params_a.to_config).migration_quote_threshold * 20 / 100 →
      state_a.get_swap_amount_from_quote_to_base params_a.to_config 500 =
        .ok { output_amount := 0, next_sqrt_price := 2 ^ 64 }) :=
  c5_swallow_tolerance.2 state_a params_a.to_config 500
    { total_output_amount := 0, current_sqrt_price := 2 ^ 64, amount_left := 500,
      broke := true } (by decide) (by rfl)

/-! ## Claim C2: graduation cap -/

/-- Inversion of `get_fee_on_amount`: the net amount is the input minus
`floor(input * effective_bps / FEE_DENOMINATOR)`. -/
theorem fee_ok_amount {cf : Config} {a : Nat} {f1 f2 f3 : Bool} {tier : Option CashbackTier}
    {fb : FeeBreakdown} (h : cf.get_fee_on_amount a f1 f2 f3 tier = .ok fb) :
    fb.amount = a - a * (if f1 || f2 || f3 then
        cf.fee_basis_points - cf.referee_discount_basis_points
      else cf.fee_basis_points) / FEE_DENOMINATOR ∧
    a * (if f1 || f2 || f3 then
        cf.fee_basis_points - cf.referee_discount_basis_points
      else cf.fee_basis_points) / FEE_DENOMINATOR ≤ a := by
  cases f1 <;> cases f2 <;> cases f3 <;>
  · simp only [Config.get_fee_on_amount, bind_eq_ok, pure_eq_ok, Bool.or_self, Bool.or_false,
      Bool.false_or, Bool.or_true, Bool.true_or, if_true, if_false, Bool.false_eq_true,
      ite_true, ite_false] at h ⊢
    obtain ⟨l1f, h1, l2f, h2, l3f, h3, cbf, h4, crf, h5, tf, h7,
      p1, hp1, q1, hq1, q2, hq2, q3, hq3, q4, hq4, pf, hpf, am, ham, hfb⟩ := h
    first
    | (rw [safe_sub_eq_ok] at h7
       obtain ⟨hd7, h7⟩ := h7)
    | skip
    subst h7
    rw [smdc_down_eq_ok] at hp1
    obtain ⟨-, -, -, hp1⟩ := hp1
    rw [safe_sub_eq_ok] at ham
    obtain ⟨hamle, ham⟩ := ham
    subst hfb
    simp only
    rw [← hp1]
    omega

/-- The algebraic heart of the graduation cap: recomputing fees on
`ceil(B·D / (D − eff))` leaves a net amount of at least `B`. -/
theorem capped_net_ge {B D eff : Nat} (hD : 0 < D) (heff : eff ≤ D) (hden : 0 < D - eff) :
    B ≤ (B * D + (D - eff) - 1) / (D - eff) -
        (B * D + (D - eff) - 1) / (D - eff) * eff / D := by
  have hdm := Nat.div_add_mod (B * D + (D - eff) - 1) (D - eff)
  have hml : (B * D + (D - eff) - 1) % (D - eff) < D - eff := Nat.mod_lt _ hden
  have hceil : B * D ≤ (D - eff) * ((B * D + (D - eff) - 1) / (D - eff)) := by
    omega
  have hBq : B ≤ (B * D + (D - eff) - 1) / (D - eff) := by
    have h1 : (D - eff) * B ≤ B * D := by
      rw [Nat.mul_comm]
      exact Nat.mul_le_mul_left B (by omega)
    exact Nat.le_of_mul_le_mul_left (le_trans h1 hceil) hden
  have hqe : (B * D + (D - eff) - 1) / (D - eff) * eff ≤
      ((B * D + (D - eff) - 1) / (D - eff) - B) * D := by
    have e2 : (B * D + (D - eff) - 1) / (D - eff) * eff +
        (B * D + (D - eff) - 1) / (D - eff) * (D - eff) =
        (B * D + (D - eff) - 1) / (D - eff) * D := by
      rw [← Nat.mul_add]
      congr 1
      omega
    have e3 : ((B * D + (D - eff) - 1) / (D - eff) - B) * D + B * D =
        (B * D + (D - eff) - 1) / (D - eff) * D := by
      rw [← Nat.add_mul]
      congr 1
      omega
    have hceil2 : B * D ≤ (B * D + (D - eff) - 1) / (D - eff) * (D - eff) :=
      le_trans hceil (Nat.le_of_eq (Nat.mul_comm _ _))
    omega
  have hdiv : (B * D + (D - eff) - 1) / (D - eff) * eff / D ≤
      (B * D + (D - eff) - 1) / (D - eff) - B := by
    have h4 : (B * D + (D - eff) - 1) / (D - eff) * eff / D ≤
        ((B * D + (D - eff) - 1) / (D - eff) - B) * D / D := Nat.div_le_div_right hqe
    rwa [Nat.mul_div_cancel _ hD] at h4
  omega

/-- The graduation-cap recomputation never raises `InvalidMigrationCalculation`:
whenever its final check is reached, the capped net amount provably restores the
effective quote reserve to at least the migration threshold. -/
theorem quote_to_base_fee_ne_imc (s : BondingCurve) (cfg : Config) (a : Nat)
    (f1 f2 f3 : Bool) (tier : Option CashbackTier) :
    quote_to_base_fee s cfg a f1 f2 f3 tier ≠ .error .invalidMigrationCalculation := by
  intro hc
  simp only [quote_to_base_fee] at hc
  rw [bind_eq_error] at hc
  rcases hc with h | ⟨fb, hfb, hc⟩
  · exact get_fee_ne_error cfg a f1 f2 f3 tier (by decide) (by decide) h
  rw [bind_eq_error] at hc
  rcases hc with h | ⟨t1, ht1, hc⟩
  · exact safe_sub_ne_error (by decide) h
  rw [bind_eq_error] at hc
  rcases hc with h | ⟨t2, ht2, hc⟩
  · exact safe_sub_ne_error (by decide) h
  rw [bind_eq_error] at hc
  rcases hc with h | ⟨naive, hnaive, hc⟩
  · exact safe_add_u64_ne_error (by decide) h
  by_cases hgt : naive > cfg.migration_quote_threshold
  case neg =>
    rw [if_neg hgt] at hc
    exact pure_ne_error hc
  rw [if_pos hgt] at hc
  rw [bind_eq_error] at hc
  rcases hc with h | ⟨b1, hb1, hc⟩
  · exact safe_sub_ne_error (by decide) h
  rw [bind_eq_error] at hc
  rcases hc with h | ⟨b2, hb2, hc⟩
  · exact safe_add_u64_ne_error (by decide) h
  rw [bind_eq_error] at hc
  rcases hc with h | ⟨b3, hb3, hc⟩
  · exact safe_add_u64_ne_error (by decide) h
  rw [bind_eq_error] at hc
  rcases hc with h | ⟨eff, heff, hc⟩
  · revert h
    split
    · exact safe_sub_ne_error (by decide)
    · exact pure_ne_error
  rw [bind_eq_error] at hc
  rcases hc with h | ⟨den, hden, hc⟩
  · exact safe_sub_ne_error (by decide) h
  rw [bind_eq_error] at hc
  rcases hc with h | ⟨capped, hcapped, hc⟩
  · exact smdc_ne_error (by decide) (by decide) h
  rw [bind_eq_error] at hc
  rcases hc with h | ⟨fb2, hfb2, hc⟩
  · exact get_fee_ne_error cfg capped f1 f2 f3 tier (by decide) (by decide) h
  rw [bind_eq_error] at hc
  rcases hc with h | ⟨u1, hu1, hc⟩
  · exact safe_sub_ne_error (by decide) h
  rw [bind_eq_error] at hc
  rcases hc with h | ⟨u2, hu2, hc⟩
  · exact safe_sub_ne_error (by decide) h
  rw [bind_eq_error] at hc
  rcases hc with h | ⟨sv, hsv, hc⟩
  · exact safe_add_u64_ne_error (by decide) h
  rw [safe_sub_eq_ok] at ht1 ht2 hb1 hden hu1 hu2
  rw [safe_add_u64_eq_ok] at hnaive hb2 hb3 hsv
  rw [smdc_up_eq_ok] at hcapped
  obtain ⟨hqr, hb1v⟩ := hb1
  obtain ⟨-, hb2v⟩ := hb2
  obtain ⟨-, hb3v⟩ := hb3
  obtain ⟨hucf, hu1v⟩ := hu1
  obtain ⟨hupf, hu2v⟩ := hu2
  obtain ⟨-, hsvv⟩ := hsv
  obtain ⟨-, -, hden0, -, hcapv⟩ := hcapped
  obtain ⟨heffle, hdenv⟩ := hden
  have hfa := fee_ok_amount hfb2
  subst hdenv
  have hdenpos : 0 < FEE_DENOMINATOR - eff := by omega
  by_cases hor : (f1 || f2 || f3) = true
  · rw [if_pos hor] at heff
    rw [safe_sub_eq_ok] at heff
    obtain ⟨hdle, heffv⟩ := heff
    simp only [hor, eq_self_iff_true, if_true] at hfa
    subst heffv
    have hkey := capped_net_ge (by decide : (0 : Nat) < FEE_DENOMINATOR)
      (B := b3) heffle hdenpos
    rw [← hcapv] at hkey
    have hges : sv ≥ cfg.migration_quote_threshold := by omega
    rw [if_pos hges] at hc
    exact pure_ne_error hc
  · rw [if_neg hor] at heff
    rw [pure_eq_ok] at heff
    simp only [Bool.not_eq_true] at hor
    simp only [hor, Bool.false_eq_true, if_false] at hfa
    subst heff
    have hkey := capped_net_ge (by decide : (0 : Nat) < FEE_DENOMINATOR)
      (B := b3) heffle hdenpos
    rw [← hcapv] at hkey
    have hges : sv ≥ cfg.migration_quote_threshold := by omega
    rw [if_pos hges] at hc
    exact pure_ne_error hc

/-- C2 counterexample: at `config_a` (one breakpoint, fee 10000 bps) with quote
reserve 999 and threshold 1000, a QuoteToBase swap of 10 overshoots (naive net
amount 9 would give a reserve of 1008), so the capped recomputation fires; the
capped gross input is `ceil(1 * 100000 / 90000) = 2` whose total fee rounds to
0, so the accepted net input is 2 and the post-swap effective quote reserve is
`999 + 2 = 1001` — strictly beyond the threshold 1000, refuting "exactly at the
threshold value (not beyond)". -/
theorem c2_counterexample :
    params_a.validate = .ok () ∧
    Except.map (fun fb => fb.amount)
      (config_a.get_fee_on_amount 10 false false false none) = .ok 9 ∧
    (1000 : Nat) < 999 - 0 - 0 + 9 ∧
    Except.map (fun r => r.actual_input_amount)
      (state_a.get_swap_result config_a 10 .quoteToBase false false false none) = .ok 2 ∧
    state_a.quote_reserve - state_a.creator_fee - state_a.protocol_fee + 2 = 1001 ∧
    config_a.migration_quote_threshold = 1000 := by
  exact ⟨rfl, rfl, by decide, rfl, rfl, rfl⟩

/-- C2 (amended): `get_swap_result` never fails with
`InvalidMigrationCalculation` (for any configuration and state), and whenever a
QuoteToBase swap whose naive post-fee amount would push the effective quote
reserve past `migration_quote_threshold` returns `Ok`, the capped input leaves
the effective quote reserve **at least at** the threshold (it may exceed it by
the rounding residue of the ceiling division, as the counterexample shows). -/
theorem c2_graduation_cap :
    (∀ (s : BondingCurve) (cfg : Config) (a : Nat) (d : TradeDirection)
       (f1 f2 f3 : Bool) (tier : Option CashbackTier),
       s.get_swap_result cfg a d f1 f2 f3 tier ≠ .error .invalidMigrationCalculation) ∧
    (∀ (s : BondingCurve) (cfg : Config) (a : Nat) (f1 f2 f3 : Bool)
       (tier : Option CashbackTier) (fb : FeeBreakdown) (r : SwapResult),
       cfg.get_fee_on_amount a f1 f2 f3 tier = .ok fb →
       s.creator_fee ≤ s.quote_reserve →
       s.protocol_fee ≤ s.quote_reserve - s.creator_fee →
       cfg.migration_quote_threshold <
         s.quote_reserve - s.creator_fee - s.protocol_fee + fb.amount →
       s.get_swap_result cfg a .quoteToBase f1 f2 f3 tier = .ok r →
       cfg.migration_quote_threshold ≤
         s.quote_reserve - s.creator_fee - s.protocol_fee + r.actual_input_amount) := by
  constructor
  · intro s cfg a d f1 f2 f3 tier
    cases d
    · simp only [BondingCurve.get_swap_result]
      apply bind_ne_error (sell_swap_ne_error s cfg a (by decide) (by decide))
      intro sa
      apply bind_ne_error
        (get_fee_ne_error cfg sa.output_amount f1 f2 f3 tier (by decide) (by decide))
      intro fb
      exact pure_ne_error
    · simp only [BondingCurve.get_swap_result]
      apply bind_ne_error (quote_to_base_fee_ne_imc s cfg a f1 f2 f3 tier)
      intro fb
      apply bind_ne_error
        (buy_swap_ne_error s cfg fb.amount (by decide) (by decide) (by decide))
      intro sa
      exact pure_ne_error
  · intro s cfg a f1 f2 f3 tier fb r hfb hcf hpf hover hok
    simp only [BondingCurve.get_swap_result] at hok
    rw [bind_eq_ok] at hok
    obtain ⟨fb', hfb', hok⟩ := hok
    rw [bind_eq_ok] at hok
    obtain ⟨sa, hsa, hok⟩ := hok
    rw [pure_eq_ok] at hok
    subst hok
    show cfg.migration_quote_threshold ≤
      s.quote_reserve - s.creator_fee - s.protocol_fee + fb'.amount
    simp only [quote_to_base_fee] at hfb'
    rw [bind_eq_ok] at hfb'
    obtain ⟨fb0, hfb0, hfb'⟩ := hfb'
    rw [hfb] at hfb0
    cases hfb0
    rw [bind_eq_ok] at hfb'
    obtain ⟨t1, ht1, hfb'⟩ := hfb'
    rw [bind_eq_ok] at hfb'
    obtain ⟨t2, ht2, hfb'⟩ := hfb'
    rw [bind_eq_ok] at hfb'
    obtain ⟨naive, hnaive, hfb'⟩ := hfb'
    rw [safe_sub_eq_ok] at ht1 ht2
    obtain ⟨hcf2, ht1v⟩ := ht1
    obtain ⟨hpf2, ht2v⟩ := ht2
    rw [safe_add_u64_eq_ok] at hnaive
    obtain ⟨-, hnv⟩ := hnaive
    rw [if_pos (by omega : naive > cfg.migration_quote_threshold)] at hfb'
    rw [bind_eq_ok] at hfb'
    obtain ⟨b1, hb1, hfb'⟩ := hfb'
    rw [bind_eq_ok] at hfb'
    obtain ⟨b2, hb2, hfb'⟩ := hfb'
    rw [bind_eq_ok] at hfb'
    obtain ⟨b3, hb3, hfb'⟩ := hfb'
    rw [bind_eq_ok] at hfb'
    obtain ⟨eff, heff, hfb'⟩ := hfb'
    rw [bind_eq_ok] at hfb'
    obtain ⟨den, hden, hfb'⟩ := hfb'
    rw [bind_eq_ok] at hfb'
    obtain ⟨capped, hcapped, hfb'⟩ := hfb'
    rw [bind_eq_ok] at hfb'
    obtain ⟨fb2, hfb2, hfb'⟩ := hfb'
    rw [bind_eq_ok] at hfb'
    obtain ⟨u1, hu1, hfb'⟩ := hfb'
    rw [bind_eq_ok] at hfb'
    obtain ⟨u2, hu2, hfb'⟩ := hfb'
    rw [bind_eq_ok] at hfb'
    obtain ⟨sv, hsv, hfb'⟩ := hfb'
    rw [safe_sub_eq_ok] at hu1 hu2
    obtain ⟨hucf, hu1v⟩ := hu1
    obtain ⟨hupf, hu2v⟩ := hu2
    rw [safe_add_u64_eq_ok] at hsv
    obtain ⟨-, hsvv⟩ := hsv
    by_cases hge : sv ≥ cfg.migration_quote_threshold
    · rw [if_pos hge] at hfb'
      rw [pure_eq_ok] at hfb'
      subst hfb'
      omega
    · rw [if_neg hge] at hfb'
      exact absurd hfb' throw_ne_ok

/-- Witness for C2 (amended), at the counterexample instance: the capped swap's
accepted input (2) puts the effective quote reserve (999 + 2) at or above the
threshold 1000. -/
theorem c2_graduation_cap_witness :
    config_a.migration_quote_threshold ≤
      state_a.quote_reserve - state_a.creator_fee - state_a.protocol_fee +
        ({ actual_input_amount := 2, output_amount := 1,
           next_sqrt_price := 2 ^ 64 + 2 ^ 59, trading_fee := 0, protocol_fee := 0,
           cashback_fee := 0, creator_fee := 0, l1_referral_fee := 0,
           l2_referral_fee := 0, l3_referral_fee := 0 } : SwapResult).actual_input_amount :=
  c2_graduation_cap.2 state_a config_a 10 false false false none
    { amount := 9, l1_referral_fee := 0, l2_referral_fee := 0, l3_referral_fee := 0,
      creator_fee := 0, cashback_fee := 0, protocol_fee := 1 }
    { actual_input_amount := 2, output_amount := 1, next_sqrt_price := 2 ^ 64 + 2 ^ 59,
      trading_fee := 0, protocol_fee := 0, cashback_fee := 0, creator_fee := 0,
      l1_referral_fee := 0, l2_referral_fee := 0, l3_referral_fee := 0 }
    (by rfl) (by decide) (by decide) (by decide) (by rfl)

end GachiAmm
